import Mathlib

/-!
Verification development for the stack-walking and on-stack-replacement (OSR)
subsystem of the CoreCLR runtime (`src/coreclr/vm/stackwalk.cpp` and
`src/coreclr/vm/jithelpers.cpp`).

The C++ code is shallowly embedded: each Lean definition below mirrors one
source function (names are kept), with machine state made explicit and
environment-dependent primitives (code manager, unwinder, exception trackers)
passed in as oracle data.  The embedding fixes the mainstream 64-bit build
configuration: `FEATURE_EH_FUNCLETS` on, `PROCESS_EXPLICIT_FRAME_BEFORE_MANAGED_FRAME`
on, `ELIMINATE_FEF` off, `FEATURE_INTERPRETER` off, `STACKWALKER_MAY_POP_FRAMES` off.
-/

namespace StackWalk

/-- `StackWalkAction` from the stack walker.  In the source `SWA_DONE` is the
same enumerator value as `SWA_CONTINUE` (the comments in `stackwalk.cpp` state
`SWA_CONTINUE (== SWA_DONE)`), so it is not a separate constructor here. -/
inductive StackWalkAction where
  | SWA_CONTINUE
  | SWA_ABORT
  | SWA_FAILED
deriving DecidableEq

/-- `SWA_DONE` is an alias of `SWA_CONTINUE` in the source enum. -/
def SWA_DONE : StackWalkAction := .SWA_CONTINUE

/-- The GSCookie-related observable state of a `CrawlFrame`:
the value stored at `*pFirstGSCookie` (`none` models `pFirstGSCookie == NULL`),
the value stored at `*pCurGSCookie`, and the process-wide GSCookie. -/
structure GSCookieState where
  firstCookie : Option Nat
  curCookie : Nat
  processCookie : Nat
deriving DecidableEq

/-- `CrawlFrame::CheckGSCookies` (stackwalk.cpp).  Returns `true` when the
check passes; `false` models `DoJITFailFast()` (immediate process
termination).  When `pFirstGSCookie == NULL` the function returns without
checking anything; otherwise both `*pFirstGSCookie` and `*pCurGSCookie` must
equal the process GSCookie. -/
def CheckGSCookies (g : GSCookieState) : Bool :=
  match g.firstCookie with
  | none => true
  | some firstVal => firstVal == g.processCookie && g.curCookie == g.processCookie

/-- `Thread::MakeStackwalkerCallback` (stackwalk.cpp): re-validates the
GSCookies, invokes the user callback (which may run arbitrary code, modelled
by letting it transform the user state `σ` and the cookie state), and
re-validates the GSCookies again.  `none` models process termination by
`DoJITFailFast` in `CheckGSCookies`. -/
def MakeStackwalkerCallback {Pos σ : Type}
    (pos : Pos) (cb : Pos → σ → GSCookieState → StackWalkAction × σ × GSCookieState)
    (s : σ) (g : GSCookieState) : Option (StackWalkAction × σ × GSCookieState) :=
  if CheckGSCookies g then
    let r := cb pos s g
    if CheckGSCookies r.2.2 then some r else none
  else
    none

/-- One observed step of the `StackFrameIterator` as seen by the driver loop
in `Thread::StackWalkFramesEx`: the surfaced position (the `m_crawl` value
handed to the callback) together with the `StackWalkAction` that the
subsequent `iter.Next()` call returns.  A walk is the list of such steps, the
list becoming empty exactly when `iter.IsValid()` turns false. -/
structure IterStep (Pos : Type) where
  pos : Pos
  nextResult : StackWalkAction

/-- The driver loop of `Thread::StackWalkFramesEx` (stackwalk.cpp lines
876-891), with the iterator abstracted as the oracle sequence `steps`:

`while (iter.IsValid()) { retVal = MakeStackwalkerCallback(...);
  if (retVal == SWA_ABORT) break;
  retVal = iter.Next(); if (retVal == SWA_FAILED) break; }`

Returns `none` on GSCookie fail-fast, otherwise the final `retVal` together
with the list of positions that were delivered to the callback.  The initial
`retVal` is `SWA_FAILED` (line 859), which is what an immediately-invalid
iterator yields. -/
def StackWalkFramesEx {Pos σ : Type}
    (steps : List (IterStep Pos))
    (cb : Pos → σ → GSCookieState → StackWalkAction × σ × GSCookieState)
    (s : σ) (g : GSCookieState) : Option (StackWalkAction × List Pos) :=
  match steps with
  | [] => some (.SWA_FAILED, [])
  | step :: rest =>
    match MakeStackwalkerCallback step.pos cb s g with
    | none => none
    | some (swa, s1, g1) =>
      if swa = .SWA_ABORT then
        some (.SWA_ABORT, [step.pos])
      else if step.nextResult = .SWA_FAILED then
        some (.SWA_FAILED, [step.pos])
      else if rest.isEmpty then
        some (step.nextResult, [step.pos])
      else
        match StackWalkFramesEx rest cb s1 g1 with
        | none => none
        | some (res, visited) => some (res, step.pos :: visited)

/-- A callback that keeps an invocation counter in the user data (the `pData`
pointer of the source protocol) and answers according to `f` applied to the
number of previously delivered positions, leaving the cookie state alone. -/
def countingCallback {Pos : Type} (f : Nat → StackWalkAction) :
    Pos → Nat → GSCookieState → StackWalkAction × Nat × GSCookieState :=
  fun _ k g => (f k, k + 1, g)

/-! ### The `StackFrameIterator` advancing machinery (`NextRaw` and helpers)

The embedding covers the frameless-managed-method fragment of
`StackFrameIterator::NextRaw` together with `ProcessIp`,
`ProcessCurrentFrame`, `CheckForSkippedFrames`,
`PreProcessingForManagedFrames` and `PostProcessingForManagedFrames`, in the
64-bit build configuration (`PROCESS_EXPLICIT_FRAME_BEFORE_MANAGED_FRAME` is
defined, `ELIMINATE_FEF` and `FEATURE_INTERPRETER` are not).  The explicit
frame branches (`SFITER_FRAME_FUNCTION`, `SFITER_SKIPPED_FRAME_FUNCTION`,
`SFITER_NO_FRAME_TRANSITION`) are outside the embedded fragment and are
mapped to the distinguished outcome `outsideModel`. -/

/-- The `SFITER_*` frame states of `StackFrameIterator`. -/
inductive FrameState where
  | SFITER_UNINITIALIZED
  | SFITER_FRAMELESS_METHOD
  | SFITER_FRAME_FUNCTION
  | SFITER_SKIPPED_FRAME_FUNCTION
  | SFITER_NO_FRAME_TRANSITION
  | SFITER_NATIVE_MARKER_FRAME
  | SFITER_INITIAL_NATIVE_CONTEXT
  | SFITER_DONE
deriving DecidableEq

/-- The registers of the `REGDISPLAY` that the embedded fragment reads: the
control PC, the stack pointer, and the SP of the caller context computed by
`EnsureCallerContextIsValid` (used as `pvReferenceSP` by
`CheckForSkippedFrames` on 64-bit targets). -/
structure RegDisplay where
  ip : Nat
  sp : Nat
  callerSP : Nat
deriving DecidableEq

/-- The environment-dependent primitives consulted by the iterator: the
execution manager's managed-code query, the code manager's unwinder and
GSCookie-address query, and the thread's cached stack bounds. -/
structure WalkEnv where
  isManagedCode : Nat → Bool
  UnwindStackFrame : RegDisplay → Option RegDisplay
  GetGSCookieAddr : RegDisplay → Option Nat
  stackLimit : Nat
  stackBase : Nat
  isExecutingOnAltStack : Bool

/-- The stackwalk flags read by the embedded fragment. -/
structure WalkFlags where
  profilerDoStackSnapshot : Bool
  handleSkippedFrames : Bool
  skipGsCookieCheck : Bool
deriving DecidableEq

/-- The iterator state that the embedded fragment reads and writes: the frame
state, the explicit frame chain (list of frame addresses, leaf to root, `[]`
modelling `FRAME_TOP`), the register display, the `CrawlFrame` booleans, and
the GSCookie state. -/
structure IterState where
  frameState : FrameState
  frames : List Nat
  rd : RegDisplay
  isFrameless : Bool
  isNativeMarker : Bool
  isFirst : Bool
  isInterrupted : Bool
  hasFaulted : Bool
  isIPadjusted : Bool
  gs : GSCookieState
deriving DecidableEq

/-- The outcome of one `NextRaw` advance.  `swaContinue`/`swaFailed` carry
the resulting iterator state; `assertViolation` models an `_ASSERTE` firing
(an internal-consistency violation in checked builds); `failFast` models
`DoJITFailFast` process termination; `outsideModel` marks the explicit-frame
branches that are not part of the embedded fragment. -/
inductive WalkOutcome where
  | swaContinue (st : IterState)
  | swaFailed (st : IterState)
  | assertViolation (st : IterState)
  | failFast
  | outsideModel
deriving DecidableEq

/-- The frame state of an outcome's iterator state, when there is one. -/
def WalkOutcome.frameStateOf : WalkOutcome → Option FrameState
  | .swaContinue st => some st.frameState
  | .swaFailed st => some st.frameState
  | .assertViolation st => some st.frameState
  | .failFast => none
  | .outsideModel => none

/-- Whether the outcome is a successful advance (`SWA_CONTINUE`). -/
def WalkOutcome.isContinue : WalkOutcome → Bool
  | .swaContinue _ => true
  | _ => false

/-- The register display of an outcome's iterator state, when there is one. -/
def WalkOutcome.rdOf : WalkOutcome → Option RegDisplay
  | .swaContinue st => some st.rd
  | .swaFailed st => some st.rd
  | .assertViolation st => some st.rd
  | .failFast => none
  | .outsideModel => none

/-- The loop guard of `CheckForSkippedFrames`: the chain has a frame and the
leaf frame's address lies below the reference SP. -/
def hasSkippedFrame (frames : List Nat) (refSP : Nat) : Bool :=
  match frames with
  | [] => false
  | fr :: _ => fr < refSP

/-- `StackFrameIterator::ProcessIp`: re-resolve the code info for the given
IP and update `isFrameless` (`m_crawl.isFrameless = !!m_crawl.codeInfo.IsValid()`). -/
def ProcessIp (env : WalkEnv) (st : IterState) (ip : Nat) : IterState :=
  { st with isFrameless := env.isManagedCode ip }

/-- `StackFrameIterator::IsValid` (the release-build logic): there is more to
iterate unless the walk is at an explicit-frame position with the frame chain
exhausted, except that a native marker frame still admits one more advance. -/
def IterIsValid (st : IterState) : Bool :=
  if !st.isFrameless && st.frames.isEmpty then
    st.frameState == .SFITER_NATIVE_MARKER_FRAME
  else
    true

/-- `StackFrameIterator::PostProcessingForManagedFrames` (with
`ELIMINATE_FEF` off): re-run `ProcessIp` on the unwound control PC; if the
walk has left managed code, stop at a native marker frame. -/
def PostProcessingForManagedFrames (env : WalkEnv) (st : IterState) : IterState :=
  let st := ProcessIp env st st.rd.ip
  if !st.isFrameless then
    { st with frameState := .SFITER_NATIVE_MARKER_FRAME, isNativeMarker := true }
  else
    st

/-- `CrawlFrame::SetCurGSCookie` on a non-NULL cookie address: records the
value `v` stored at the new current cookie address, making it also the first
cookie when none was registered yet. -/
def SetCurGSCookie (gs : GSCookieState) (v : Nat) : GSCookieState :=
  { gs with curCookie := v, firstCookie := some (gs.firstCookie.getD v) }

/-- `StackFrameIterator::CheckForSkippedFrames` for targets with
`PROCESS_EXPLICIT_FRAME_BEFORE_MANAGED_FRAME`: the reference SP is the SP of
the caller context; an explicit frame whose address lies below it has been
skipped.  With `HANDLESKIPPEDFRAMES` the skipped frames are simply popped
(`GotoNextFrame` in a loop); otherwise the iterator stops at the first one in
state `SFITER_SKIPPED_FRAME_FUNCTION`. -/
def CheckForSkippedFrames (flags : WalkFlags) (st : IterState) : Bool × IterState :=
  let pvReferenceSP := st.rd.callerSP
  match st.frames with
  | [] => (false, st)
  | fr :: rest =>
    if fr < pvReferenceSP then
      if flags.handleSkippedFrames then
        (false, { st with frames := (fr :: rest).dropWhile (fun a => a < pvReferenceSP) })
      else
        (true, { st with isFrameless := false,
                         frameState := .SFITER_SKIPPED_FRAME_FUNCTION })
    else
      (false, st)

/-- `StackFrameIterator::PreProcessingForManagedFrames` (with
`RECORD_RESUMABLE_FRAME_SP` off): fetch the GSCookie address for the new
managed frame; unless `SKIP_GSCOOKIE_CHECK` is set, register it via
`SetCurGSCookie`, which re-validates the cookies (`failFast` on mismatch);
then stop at the managed frame. -/
def PreProcessingForManagedFrames (env : WalkEnv) (flags : WalkFlags)
    (st : IterState) : WalkOutcome :=
  match env.GetGSCookieAddr st.rd with
  | some v =>
    if flags.skipGsCookieCheck then
      .swaContinue { st with frameState := .SFITER_FRAMELESS_METHOD }
    else
      let gs2 := SetCurGSCookie st.gs v
      if CheckGSCookies gs2 then
        .swaContinue { st with gs := gs2, frameState := .SFITER_FRAMELESS_METHOD }
      else
        .failFast
  | none =>
    .swaContinue { st with frameState := .SFITER_FRAMELESS_METHOD }

/-- The part of `StackFrameIterator::ProcessCurrentFrame` that runs after the
initial GSCookie check and the frame-state bookkeeping. -/
def ProcessCurrentFrameMain (env : WalkEnv) (flags : WalkFlags)
    (st : IterState) : WalkOutcome :=
  if !(IterIsValid st) then
    .swaContinue { st with frameState := .SFITER_DONE }
  else if st.isFrameless then
    match CheckForSkippedFrames flags st with
    | (true, st2) => .swaContinue st2
    | (false, st2) => PreProcessingForManagedFrames env flags st2
  else
    .swaContinue { st with frameState := .SFITER_FRAME_FUNCTION }

/-- `StackFrameIterator::ProcessCurrentFrame` (with `ELIMINATE_FEF` and
`FEATURE_INTERPRETER` off): re-validate the GSCookies, handle the
initial-native-context case, clear the frame state, and classify the new
position (done / skipped explicit frame / frameless managed method / explicit
frame function). -/
def ProcessCurrentFrame (env : WalkEnv) (flags : WalkFlags)
    (st : IterState) : WalkOutcome :=
  if !(CheckGSCookies st.gs) then
    .failFast
  else if st.frameState == .SFITER_UNINITIALIZED then
    if !st.isFrameless then
      .swaContinue { st with frameState := .SFITER_INITIAL_NATIVE_CONTEXT }
    else
      ProcessCurrentFrameMain env flags st
  else
    ProcessCurrentFrameMain env flags { st with frameState := .SFITER_UNINITIALIZED }

/-- `StackFrameIterator::NextRaw` (the embedded fragment, 64-bit
configuration).  For a frameless managed method: unwind one frame via the
code manager's `UnwindStackFrame` (failure yields `SWA_FAILED` without
advancing), apply the two `FAIL_IF_SPECULATIVE_WALK` stack-bounds validations
(ordinary failure under `PROFILER_DO_STACK_SNAPSHOT`, an assertion
otherwise), clear the per-frame `CrawlFrame` flags, and classify the unwound
position via `PostProcessingForManagedFrames` / `ProcessCurrentFrame`. -/
def NextRaw (env : WalkEnv) (flags : WalkFlags) (st : IterState) : WalkOutcome :=
  match st.frameState with
  | .SFITER_SKIPPED_FRAME_FUNCTION => .outsideModel
  | .SFITER_FRAMELESS_METHOD =>
    match env.UnwindStackFrame st.rd with
    | none => .swaFailed st
    | some rd2 =>
      let st := { st with rd := rd2 }
      if !(env.isExecutingOnAltStack || decide (rd2.sp ≥ env.stackLimit)) then
        if flags.profilerDoStackSnapshot then .swaFailed st else .assertViolation st
      else if !(env.isExecutingOnAltStack || decide (rd2.sp < env.stackBase)) then
        if flags.profilerDoStackSnapshot then .swaFailed st else .assertViolation st
      else
        let st := { st with isFirst := false, isInterrupted := false,
                            hasFaulted := false, isIPadjusted := false }
        let st := PostProcessingForManagedFrames env st
        if st.frameState == .SFITER_NATIVE_MARKER_FRAME then
          .swaContinue st
        else
          ProcessCurrentFrame env flags st
  | .SFITER_FRAME_FUNCTION => .outsideModel
  | .SFITER_NO_FRAME_TRANSITION => .outsideModel
  | .SFITER_NATIVE_MARKER_FRAME =>
    ProcessCurrentFrame env flags { st with isNativeMarker := false }
  | .SFITER_INITIAL_NATIVE_CONTEXT =>
    ProcessCurrentFrame env flags st
  | _ => .swaFailed st

end StackWalk

namespace Patchpoint

/-! ### The on-stack-replacement transition engine (`jithelpers.cpp`)

Shallow embedding of `JIT_PatchpointWorkerWorkerWithPolicy` and its
transition tail.  The architecture-conditional parts are parametrized by
`amd64` (the `TARGET_AMD64` sections); the shadow stack pointer is carried as
a plain field, with the value `0` meaning shadow stacks are disabled
(matching the `if (ssp != 0)` guard in the source). -/

/-- The execution-context fields handled by the OSR transition tail of
`JIT_PatchpointWorkerWorkerWithPolicy`: program counter, stack pointer,
frame pointer (`Rbp`), and the shadow stack pointer. -/
structure OsrContext where
  ip : Nat
  sp : Nat
  fp : Nat
  ssp : Nat
deriving DecidableEq

/-- The transition tail of `JIT_PatchpointWorkerWorkerWithPolicy`
(jithelpers.cpp lines 1765-1816): given the frame context unwound back to the
original method frame (`ctxAtPatchpoint`, whose SP and FP the source captures
into `currentSP`/`currentFP`) and the context produced by the subsequent
`RtlVirtualUnwind` to the original method's caller (`callerCtx`), build the
context with which the OSR variant is entered.  On AMD64 the captured SP is
decremented by 8 to simulate the return-address push of a call (the shadow
stack pointer is likewise decremented when enabled) and `Rbp` is set to the
captured FP; then SP is installed and the IP is rewritten to the optimized
entry point. -/
def osrTransitionContext (amd64 : Bool) (ctxAtPatchpoint callerCtx : OsrContext)
    (osrMethodCode : Nat) : OsrContext :=
  let currentSP := ctxAtPatchpoint.sp
  let currentFP := ctxAtPatchpoint.fp
  if amd64 then
    let currentSP2 := currentSP - 8
    let ctx := if callerCtx.ssp ≠ 0 then { callerCtx with ssp := callerCtx.ssp - 8 }
               else callerCtx
    let ctx2 := { ctx with fp := currentFP }
    { ctx2 with sp := currentSP2, ip := osrMethodCode }
  else
    { callerCtx with sp := currentSP, ip := osrMethodCode }

/-- The observable exit of `JIT_PatchpointWorkerWorkerWithPolicy` together
with the thread's last OS error code at that exit: either the normal return
(the `DONE` path, no transition) or the non-returning control transfer into
the optimized code (`ClrRestoreNonvolatileContext`). -/
inductive PatchpointExit where
  | normalReturn (lastError : Nat)
  | transition (ctx : OsrContext) (lastError : Nat)
deriving DecidableEq

/-- The last OS error code observable at the helper's exit. -/
def PatchpointExit.lastErrorOf : PatchpointExit → Nat
  | .normalReturn e => e
  | .transition _ e => e

/-- `JIT_PatchpointWorkerWorkerWithPolicy` as a function of the thread's last
OS error code (jithelpers.cpp lines 1658-1833): the helper saves
`GetLastError()` into `dwLastError` on entry, before anything else; the
policy call and the stack crawling may clobber the thread's last error
arbitrarily (`bodyLastError`); if the policy produced no optimized code
(`osrMethodCode == NULL`, i.e. `0`) the helper executes
`SetLastError(dwLastError)` at `DONE` and returns; otherwise it executes
`SetLastError(dwLastError)` immediately before the non-returning
`ClrRestoreNonvolatileContext` into the transition context. -/
def JIT_PatchpointWorkerWorkerWithPolicy (lastErrorOnEntry : Nat)
    (bodyLastError : Nat) (osrMethodCode : Nat) (amd64 : Bool)
    (ctxAtPatchpoint callerCtx : OsrContext) : PatchpointExit :=
  let dwLastError := lastErrorOnEntry
  let lastErrorAfterBody := bodyLastError
  if osrMethodCode = 0 then
    let _ := lastErrorAfterBody
    .normalReturn dwLastError
  else
    .transition (osrTransitionContext amd64 ctxAtPatchpoint callerCtx osrMethodCode)
      dwLastError

/-! ### The patchpoint policies as a concurrent transition system

`PatchpointOptimizationPolicy` and `PatchpointRequiredPolicy`
(jithelpers.cpp) are embedded as small-step thread programs over the shared
`PerPatchpointInfo` record.  Every constructor of the step relations performs
at most one access to the shared record, so arbitrary interleavings of the
source's shared-memory accesses are represented.  Compilation
(`JitPatchpointWorker`) is a nondeterministic step: it either produces some
non-null code address or fails. -/

/-- The shared per-patchpoint record (`PerPatchpointInfo`): the
`patchpoint_triggered` and `patchpoint_invalid` bits of `m_flags`, the
published OSR entry point `m_osrMethodCode` (`0` models `NULL`), and the
shared hit counter `m_patchpointCount`. -/
structure PerPatchpointInfo where
  flagTriggered : Bool
  flagInvalid : Bool
  osrMethodCode : Nat
  patchpointCount : Int
deriving DecidableEq

/-- Thread-local control locations of `PatchpointOptimizationPolicy`
(jithelpers.cpp lines 1345-1531).  Locals read from the shared record are
carried in the constructors. -/
inductive OptThread where
  | start
  | atInvalidCheck (osr : Nat)
  | atIncrement (osr : Nat)
  | atHitCheck (osr : Nat) (hit : Int)
  | atFlagsRead (osr : Nat)
  | atCas (osr : Nat) (oldTriggered oldInvalid : Bool)
  | atRereadOsr
  | atCompile
  | atPublish (code : Nat)
  | atMarkInvalid
  | done (ret : Nat)
deriving DecidableEq

/-- One atomic step of `PatchpointOptimizationPolicy` against the shared
record.  The correspondence to the source, line by line:
`readOsr` = the read of `m_osrMethodCode` (1352); `invalidHit` = the
`patchpoint_invalid` early return (1378-1384); `osrAlready` = skipping the
`osrMethodCode == NULL` block and returning the previously read value
(1386/1527); `toIncrement`/`increment` = `InterlockedIncrement` of
`m_patchpointCount` (1439); `hitBelow`/`hitReached` = the `hitCount <
hitLimit` deferral (1446-1449); `flagsRead` = the read of `m_flags` (1452);
`casAwaiting` = the pre-CAS `patchpoint_triggered` check (1453-1457);
`casWin`/`casLose` = the `InterlockedCompareExchange` installing
`oldFlags | patchpoint_triggered` (1459-1466); `rereadSome`/`rereadNone` =
the re-read of `m_osrMethodCode` after winning (1484-1485);
`compileOk`/`compileFail` = `JitPatchpointWorker` (1504); `publish` = the
store to `m_osrMethodCode` (1518); `markInvalid` = the `InterlockedOr` of
`patchpoint_invalid` (1513). -/
inductive OptStep (hitLimit : Int) :
    PerPatchpointInfo → OptThread → PerPatchpointInfo → OptThread → Prop where
  | readOsr (pp : PerPatchpointInfo) :
      OptStep hitLimit pp .start pp (.atInvalidCheck pp.osrMethodCode)
  | invalidHit (pp : PerPatchpointInfo) (osr : Nat) :
      pp.flagInvalid = true →
      OptStep hitLimit pp (.atInvalidCheck osr) pp (.done 0)
  | osrAlready (pp : PerPatchpointInfo) (osr : Nat) :
      pp.flagInvalid = false → osr ≠ 0 →
      OptStep hitLimit pp (.atInvalidCheck osr) pp (.done osr)
  | toIncrement (pp : PerPatchpointInfo) (osr : Nat) :
      pp.flagInvalid = false → osr = 0 →
      OptStep hitLimit pp (.atInvalidCheck osr) pp (.atIncrement osr)
  | increment (pp : PerPatchpointInfo) (osr : Nat) :
      OptStep hitLimit pp (.atIncrement osr)
        { pp with patchpointCount := pp.patchpointCount + 1 }
        (.atHitCheck osr (pp.patchpointCount + 1))
  | hitBelow (pp : PerPatchpointInfo) (osr : Nat) (hit : Int) :
      hit < hitLimit →
      OptStep hitLimit pp (.atHitCheck osr hit) pp (.done 0)
  | hitReached (pp : PerPatchpointInfo) (osr : Nat) (hit : Int) :
      ¬hit < hitLimit →
      OptStep hitLimit pp (.atHitCheck osr hit) pp (.atFlagsRead osr)
  | flagsRead (pp : PerPatchpointInfo) (osr : Nat) :
      OptStep hitLimit pp (.atFlagsRead osr) pp
        (.atCas osr pp.flagTriggered pp.flagInvalid)
  | casAwaiting (pp : PerPatchpointInfo) (osr : Nat) (oldInvalid : Bool) :
      OptStep hitLimit pp (.atCas osr true oldInvalid) pp (.done 0)
  | casWin (pp : PerPatchpointInfo) (osr : Nat) (oldInvalid : Bool) :
      pp.flagTriggered = false → pp.flagInvalid = oldInvalid →
      OptStep hitLimit pp (.atCas osr false oldInvalid)
        { pp with flagTriggered := true } .atRereadOsr
  | casLose (pp : PerPatchpointInfo) (osr : Nat) (oldInvalid : Bool) :
      ¬(pp.flagTriggered = false ∧ pp.flagInvalid = oldInvalid) →
      OptStep hitLimit pp (.atCas osr false oldInvalid) pp (.done 0)
  | rereadSome (pp : PerPatchpointInfo) :
      pp.osrMethodCode ≠ 0 →
      OptStep hitLimit pp .atRereadOsr pp (.done pp.osrMethodCode)
  | rereadNone (pp : PerPatchpointInfo) :
      pp.osrMethodCode = 0 →
      OptStep hitLimit pp .atRereadOsr pp .atCompile
  | compileOk (pp : PerPatchpointInfo) (c : Nat) :
      c ≠ 0 →
      OptStep hitLimit pp .atCompile pp (.atPublish c)
  | compileFail (pp : PerPatchpointInfo) :
      OptStep hitLimit pp .atCompile pp .atMarkInvalid
  | publish (pp : PerPatchpointInfo) (c : Nat) :
      OptStep hitLimit pp (.atPublish c)
        { pp with osrMethodCode := c } (.done c)
  | markInvalid (pp : PerPatchpointInfo) :
      OptStep hitLimit pp .atMarkInvalid
        { pp with flagInvalid := true } (.done 0)

/-- Thread-local control locations of `PatchpointRequiredPolicy`
(jithelpers.cpp lines 1533-1644). -/
inductive ReqThread where
  | start
  | loopHead
  | loopInvalidCheck
  | loopFlagsRead
  | loopNewFlagsRead (oldInvalid : Bool)
  | loopCas (oldInvalid newInvalid : Bool)
  | compile
  | publish (code : Nat)
  | markInvalidFatal
  | exitRead
  | done (ret : Nat)
  | fatal
deriving DecidableEq

/-- One atomic step of `PatchpointRequiredPolicy`.  Correspondence to the
source: `entryInvalid`/`entryOk` = the entry `patchpoint_invalid` check
(1547-1552); `loopExit`/`loopIter` = the `while (m_osrMethodCode == NULL)`
test (1572); `loopInvalid`/`loopValid` = the in-loop invalid check
(1576-1581); `flagsRead` = the read of `oldFlags` and the pre-CAS triggered
check, a loser yielding via `__SwitchToThread` (1585-1591); `newFlagsRead` =
the *fresh* read of `m_flags` in `ppInfo->m_flags | patchpoint_triggered`
(1595); `casWin`/`casLose` = the `InterlockedCompareExchange` (1596-1603);
`compileOk`/`compileFail` = `JitPatchpointWorker` (1613);
`publishStep` = the store to `m_osrMethodCode` (1629), after which the loop
condition is re-evaluated; `markInvalid` = the `InterlockedOr` of
`patchpoint_invalid` followed by `EEPOLICY_HANDLE_FATAL_ERROR` (1622-1623);
`exitDone` = the final read and return of `m_osrMethodCode` (1640-1643). -/
inductive ReqStep : PerPatchpointInfo → ReqThread → PerPatchpointInfo → ReqThread → Prop where
  | entryInvalid (pp : PerPatchpointInfo) :
      pp.flagInvalid = true → ReqStep pp .start pp .fatal
  | entryOk (pp : PerPatchpointInfo) :
      pp.flagInvalid = false → ReqStep pp .start pp .loopHead
  | loopExit (pp : PerPatchpointInfo) :
      pp.osrMethodCode ≠ 0 → ReqStep pp .loopHead pp .exitRead
  | loopIter (pp : PerPatchpointInfo) :
      pp.osrMethodCode = 0 → ReqStep pp .loopHead pp .loopInvalidCheck
  | loopInvalid (pp : PerPatchpointInfo) :
      pp.flagInvalid = true → ReqStep pp .loopInvalidCheck pp .fatal
  | loopValid (pp : PerPatchpointInfo) :
      pp.flagInvalid = false → ReqStep pp .loopInvalidCheck pp .loopFlagsRead
  | flagsReadAwait (pp : PerPatchpointInfo) :
      pp.flagTriggered = true → ReqStep pp .loopFlagsRead pp .loopHead
  | flagsReadGo (pp : PerPatchpointInfo) :
      pp.flagTriggered = false →
      ReqStep pp .loopFlagsRead pp (.loopNewFlagsRead pp.flagInvalid)
  | newFlagsRead (pp : PerPatchpointInfo) (oldInvalid : Bool) :
      ReqStep pp (.loopNewFlagsRead oldInvalid) pp
        (.loopCas oldInvalid pp.flagInvalid)
  | casWin (pp : PerPatchpointInfo) (oldInvalid newInvalid : Bool) :
      pp.flagTriggered = false → pp.flagInvalid = oldInvalid →
      ReqStep pp (.loopCas oldInvalid newInvalid)
        { pp with flagTriggered := true, flagInvalid := newInvalid } .compile
  | casLose (pp : PerPatchpointInfo) (oldInvalid newInvalid : Bool) :
      ¬(pp.flagTriggered = false ∧ pp.flagInvalid = oldInvalid) →
      ReqStep pp (.loopCas oldInvalid newInvalid) pp .loopHead
  | compileOk (pp : PerPatchpointInfo) (c : Nat) :
      c ≠ 0 → ReqStep pp .compile pp (.publish c)
  | compileFail (pp : PerPatchpointInfo) :
      ReqStep pp .compile pp .markInvalidFatal
  | publishStep (pp : PerPatchpointInfo) (c : Nat) :
      ReqStep pp (.publish c) { pp with osrMethodCode := c } .loopHead
  | markInvalid (pp : PerPatchpointInfo) :
      ReqStep pp .markInvalidFatal { pp with flagInvalid := true } .fatal
  | exitDone (pp : PerPatchpointInfo) :
      ReqStep pp .exitRead pp (.done pp.osrMethodCode)

/-- A thread runs one of the two patchpoint policies. -/
inductive ThreadProg where
  | opt : OptThread → ThreadProg
  | req : ReqThread → ThreadProg
deriving DecidableEq

/-- A configuration of the concurrent system: the shared record and the
program state of each thread. -/
structure OsrConfig where
  pp : PerPatchpointInfo
  threads : List ThreadProg
deriving DecidableEq

/-- A step of some thread of a configuration. -/
inductive ThreadStep (hitLimit : Int) :
    PerPatchpointInfo → ThreadProg → PerPatchpointInfo → ThreadProg → Prop where
  | opt {pp : PerPatchpointInfo} {t : OptThread} {pp2 : PerPatchpointInfo} {t2 : OptThread} :
      OptStep hitLimit pp t pp2 t2 → ThreadStep hitLimit pp (.opt t) pp2 (.opt t2)
  | req {pp : PerPatchpointInfo} {t : ReqThread} {pp2 : PerPatchpointInfo} {t2 : ReqThread} :
      ReqStep pp t pp2 t2 → ThreadStep hitLimit pp (.req t) pp2 (.req t2)

/-- One interleaving step of the system: some thread takes its next step
against the shared record. -/
def SysStep (hitLimit : Int) (c c2 : OsrConfig) : Prop :=
  ∃ i : Nat, ∃ t2 : ThreadProg, ∃ h : i < c.threads.length,
    ThreadStep hitLimit c.pp c.threads[i] c2.pp t2 ∧
    c2.threads = c.threads.set i t2

/-- Reachability in the concurrent system. -/
def SysReach (hitLimit : Int) : OsrConfig → OsrConfig → Prop :=
  Relation.ReflTransGen (SysStep hitLimit)

/-- A clean initial configuration: the patchpoint record is fresh (neither
triggered nor invalid, no published code) and every thread is at the entry
of one of the two policies. -/
def CleanInit (c : OsrConfig) : Prop :=
  c.pp.flagTriggered = false ∧ c.pp.flagInvalid = false ∧ c.pp.osrMethodCode = 0 ∧
    ∀ t ∈ c.threads, t = .opt .start ∨ t = .req .start

/-- The winner region of the optimizing policy: the control locations a
thread can only be in after winning the compare-and-swap on the triggered
flag and before returning. -/
def OptThread.inWinnerRegion : OptThread → Bool
  | .atRereadOsr => true
  | .atCompile => true
  | .atPublish _ => true
  | .atMarkInvalid => true
  | _ => false

/-- The winner region of the required policy. -/
def ReqThread.inWinnerRegion : ReqThread → Bool
  | .compile => true
  | .publish _ => true
  | .markInvalidFatal => true
  | _ => false

/-- The winner region of either policy. -/
def ThreadProg.inWinnerRegion : ThreadProg → Bool
  | .opt t => t.inWinnerRegion
  | .req t => t.inWinnerRegion

/-- The value a terminated policy invocation returned to
`JIT_PatchpointWorkerWorkerWithPolicy` (`0` = `NULL`, no transition). -/
def ThreadProg.retOf : ThreadProg → Option Nat
  | .opt (.done r) => some r
  | .req (.done r) => some r
  | _ => none

/-- The non-null OSR code address a thread has locally observed, if any:
a value read from (or published to) `m_osrMethodCode` agrees with the shared
record.  This is the local-state part of the agreement invariant. -/
def LocalOsrAgree (pp : PerPatchpointInfo) : ThreadProg → Prop
  | .opt (.atInvalidCheck osr) => osr ≠ 0 → osr = pp.osrMethodCode
  | .opt (.done r) => r ≠ 0 → r = pp.osrMethodCode
  | .req (.done r) => r ≠ 0 → r = pp.osrMethodCode
  | _ => True

/-- Consistency of the two flag reads of the required policy's CAS attempt:
the fresh `m_flags` read (1595) happens after the `oldFlags` read, so if the
latter saw `patchpoint_invalid` then so does the former (the invalid bit is
never cleared). -/
def LocalInvalidConsistent (pp : PerPatchpointInfo) : ThreadProg → Prop
  | .req (.loopNewFlagsRead oldInvalid) => oldInvalid = true → pp.flagInvalid = true
  | .req (.loopCas oldInvalid newInvalid) => oldInvalid = true → newInvalid = true
  | _ => True

/-- The inductive invariant of the patchpoint transition system:
`preWinner`: while the triggered flag is clear no thread is in the winner
region and no code has been published; `mutex`: at most one thread is in the
winner region; `winnerOsrNull`: while some thread is in the winner region no
code has been published yet (so the publishing store writes to a `NULL`
slot, as the source asserts at line 1628); `agree`: every locally observed
non-null code address equals the shared one; `invalidConsistent`: the
local flag copies of a required-policy CAS attempt are consistent. -/
structure OsrInv (c : OsrConfig) : Prop where
  preWinner : c.pp.flagTriggered = false →
    (∀ i : Nat, ∀ h : i < c.threads.length, c.threads[i].inWinnerRegion = false)
      ∧ c.pp.osrMethodCode = 0
  mutex : ∀ i j : Nat, ∀ hi : i < c.threads.length, ∀ hj : j < c.threads.length,
    i ≠ j → c.threads[i].inWinnerRegion = true → c.threads[j].inWinnerRegion = false
  winnerOsrNull : ∀ i : Nat, ∀ h : i < c.threads.length,
    c.threads[i].inWinnerRegion = true → c.pp.osrMethodCode = 0
  agree : ∀ i : Nat, ∀ h : i < c.threads.length, LocalOsrAgree c.pp c.threads[i]
  invalidConsistent : ∀ i : Nat, ∀ h : i < c.threads.length,
    LocalInvalidConsistent c.pp c.threads[i]

end Patchpoint

namespace StackWalk

/-! ### `StackFrameIterator::Filter`: funclet-aware GC reference reporting

Embedding of the `SFITER_FRAMELESS_METHOD` case of `StackFrameIterator::Filter`
(stackwalk.cpp lines 1597-2266) for walks in `GC_FUNCLET_REFERENCE_REPORTING`
mode (`FUNCTIONSONLY`/`SKIPFUNCLETS` clear), processing one frameless frame
per invocation, exactly as one iteration of Filter's `while (IsValid())` loop
does before it either stops (delivering the frame to the GC callback) or
advances.  The `ExInfo` queries that live outside the sources at hand
(`FindParentStackFrameForStackWalk`, `HasFrameBeenUnwoundByAnyActiveException`,
`IsUnwoundToTargetParentFrame`, the exception tracker fields) are oracle data
carried per frame / per walk; `IsUnwoundToTargetParentFrame` compares the
crawl frame's caller SP against the target stack frame, which is how the
spec's funclet-parent side channel identifies the parent.  The `MaxVal`
skip-one-frame convention of `m_sfParent` does not arise in GC mode and is
not modelled. -/

/-- `ForceGCReportingStage` (stackwalk.h). -/
inductive ForceGCReportingStage where
  | Off
  | LookForManagedFrame
  | LookForMarkerFrame
deriving DecidableEq

/-- The exception-tracker (`ExInfo`) data Filter consults, as walk-wide
oracle values: whether a tracker exists and its address (for SP-ordering
comparisons), the dispatch pass number, `m_csfEnclosingClause`,
`m_lastReportedFunclet.IP` and `m_sfCallerOfActualHandlerFrame`. -/
structure ExInfoEnv where
  exInfoPresent : Bool
  exInfoAddr : Nat
  passNumber : Nat
  enclosingClauseSP : Option Nat
  lastReportedFuncletIP : Nat
  callerOfActualHandlerSP : Nat
deriving DecidableEq

/-- The per-frame facts Filter reads about the current frameless frame:
its SP, the caller SP used by `ExInfo::IsUnwoundToTargetParentFrame`, the
funclet classification, the parent stack frame found by
`ExInfo::FindParentStackFrameForStackWalk` (`none` = `Null`), whether
`ExInfo::HasFrameBeenUnwoundByAnyActiveException` holds for it, and whether
the caller context's IP is in managed code. -/
structure GcFrame where
  sp : Nat
  callerSP : Nat
  isFunclet : Bool
  isFilterFunclet : Bool
  parentSP : Option Nat
  hasBeenUnwound : Bool
  callerIpManaged : Bool
deriving DecidableEq

/-- The GC-reporting `CrawlFrame` flags set by Filter for a delivered frame. -/
structure GcCrawlFlags where
  fShouldParentToFuncletSkipReportingGCReferences : Bool
  fShouldCrawlframeReportGCReferences : Bool
  fShouldSaveFuncletInfo : Bool
  fShouldParentFrameUseUnwindTargetPCforGCReporting : Bool
  fShouldParentToFuncletReportSavedFuncletSlots : Bool
deriving DecidableEq

/-- The funclet-tracking state of the iterator used by Filter in GC mode
(`m_sfParent`, `m_sfFuncletParent`, `m_sfIntermediaryFuncletParent`, the
processing booleans, `m_fDidFuncletReportGCReferences`, `m_fFuncletNotSeen`,
`m_fFoundFirstFunclet`, `m_movedPastFirstExInfo`,
`m_forceReportingWhileSkipping`).  Stack frames are their SP values;
`none` = `Null`. -/
structure GcFilterState where
  sfParent : Option Nat
  sfFuncletParent : Option Nat
  sfIntermediaryFuncletParent : Option Nat
  fProcessNonFilterFunclet : Bool
  fProcessIntermediaryNonFilterFunclet : Bool
  fDidFuncletReportGCReferences : Bool
  fFuncletNotSeen : Bool
  fFoundFirstFunclet : Bool
  movedPastFirstExInfo : Bool
  forceReportingWhileSkipping : ForceGCReportingStage
deriving DecidableEq

/-- `StackFrameIterator::ResetGCRefReportingState` (declared in stackwalk.h,
whose text is not among the sources at hand; modelled from its call sites):
clears the funclet-parent tracking, or only the intermediary tracking when
`fResetOnlyIntermediaryState` is set. -/
def ResetGCRefReportingState (st : GcFilterState)
    (fResetOnlyIntermediaryState : Bool) : GcFilterState :=
  let st :=
    if fResetOnlyIntermediaryState then st
    else { st with sfFuncletParent := none, fProcessNonFilterFunclet := false }
  { st with sfIntermediaryFuncletParent := none,
            fProcessIntermediaryNonFilterFunclet := false }

/-- `ExInfo::IsUnwoundToTargetParentFrame` on the current crawl frame: the
frame's caller SP equals the tracked parent stack frame. -/
def IsUnwoundToTargetParentFrame (fr : GcFrame) (target : Nat) : Bool :=
  fr.callerSP == target

/-- The locals of one iteration of Filter's loop: the tracking state, the
crawl flags being assembled, `fSkipFuncletCallback` and `fSkippingFunclet`. -/
structure FilterIterLocals where
  st : GcFilterState
  cf : GcCrawlFlags
  fSkipFuncletCallback : Bool
  fSkippingFunclet : Bool
deriving DecidableEq

/-- What Filter decides for the current frame: deliver it to the GC callback
with the given flags (`fStop = true`), or skip it and advance
(the `break` paths that do not set `fStop`).  `fuelOut` marks exhaustion of
the bounded re-examination fuel (the source's `goto
ProcessFuncletsForGCReporting` loop). -/
inductive GcFrameVerdict where
  | deliver (cf : GcCrawlFlags)
  | skipped
  | fuelOut
deriving DecidableEq

/-- The skip-reporting flag of a delivered frame, if delivered. -/
def GcFrameVerdict.skipFlag : GcFrameVerdict → Option Bool
  | .deliver cf => some cf.fShouldParentToFuncletSkipReportingGCReferences
  | _ => none

/-- The report-references flag of a delivered frame, if delivered. -/
def GcFrameVerdict.reportFlag : GcFrameVerdict → Option Bool
  | .deliver cf => some cf.fShouldCrawlframeReportGCReferences
  | _ => none

/-- The saved-funclet-slots flag of a delivered frame, if delivered. -/
def GcFrameVerdict.savedSlotsFlag : GcFrameVerdict → Option Bool
  | .deliver cf => some cf.fShouldParentToFuncletReportSavedFuncletSlots
  | _ => none

/-- The body of the `do { ... } while (fRecheckCurrentFrame)` loop labelled
`ProcessFuncletsForGCReporting` (lines 1680-1864), for a walk in GC mode:
funclet detection and funclet-parent tracking.  Returns the
`fRecheckCurrentFrame` flag and the updated locals. -/
def ProcessFuncletsBody (env : ExInfoEnv) (fr : GcFrame)
    (L : FilterIterLocals) : Bool × FilterIterLocals :=
  match L.st.sfFuncletParent with
  | some fp =>
    if !L.st.fProcessNonFilterFunclet && !L.st.fProcessIntermediaryNonFilterFunclet then
      -- processing a filter funclet (1725-1783)
      if IsUnwoundToTargetParentFrame fr fp then
        -- reached the parent of the filter funclet (1730-1751): do not skip
        -- its reporting (Dev11 376329), reset state and re-examine the frame
        (true,
         { L with
             cf := { L.cf with fShouldParentToFuncletSkipReportingGCReferences := false },
             st := ResetGCRefReportingState L.st false })
      else if fr.isFunclet then
        -- a non-filter funclet encountered while processing a filter funclet
        -- (1759-1781)
        let st := { L.st with
                      sfIntermediaryFuncletParent := fr.parentSP,
                      fProcessIntermediaryNonFilterFunclet := true,
                      sfParent := fr.parentSP }
        let st :=
          if !fr.callerIpManaged then
            { st with forceReportingWhileSkipping := .LookForManagedFrame }
          else st
        (false, { L with st := st, fSkipFuncletCallback := false })
      else
        (false, L)
    else
      (false, L)
  | none =>
    if fr.isFunclet then
      -- a funclet with no parent tracked yet (1790-1860)
      match fr.parentSP with
      | none => (false, L)
      | some p =>
        let st := { L.st with sfFuncletParent := some p }
        if !fr.isFilterFunclet then
          let st := { st with fProcessNonFilterFunclet := true, sfParent := some p }
          let saveInfo := !st.fFoundFirstFunclet && env.exInfoPresent
              && decide (env.exInfoAddr > fr.sp) && decide (p > env.exInfoAddr)
          let st := if saveInfo then { st with fFoundFirstFunclet := true } else st
          let cf := if saveInfo then { L.cf with fShouldSaveFuncletInfo := true } else L.cf
          let st :=
            if !fr.hasBeenUnwound && !fr.callerIpManaged then
              { st with forceReportingWhileSkipping := .LookForManagedFrame }
            else st
          (false, { L with st := st, cf := cf, fSkipFuncletCallback := false })
        else
          (false, { L with st := { st with fProcessNonFilterFunclet := false } })
    else
      (false, L)

/-- Runs `ProcessFuncletsBody` until `fRecheckCurrentFrame` is clear
(the `do`/`while` loop), with fuel.  The second component signals fuel
exhaustion. -/
def RunProcessFunclets (env : ExInfoEnv) (fr : GcFrame) :
    Nat → FilterIterLocals → FilterIterLocals × Bool
  | 0, L => (L, true)
  | fuel + 1, L =>
    match ProcessFuncletsBody env fr L with
    | (true, L2) => RunProcessFunclets env fr fuel L2
    | (false, L2) => (L2, false)

/-- The unwound-frame delivery decision (1961-1967): an unwound frame whose
references are not to be reported is still delivered to the GC callback (to
keep dynamic methods alive); if its report flag were still set the callback
would be skipped. -/
def DeliverUnwound (L : FilterIterLocals) : GcFrameVerdict × GcFilterState :=
  if L.cf.fShouldCrawlframeReportGCReferences then (.skipped, L.st)
  else (.deliver L.cf, L.st)

/-- The `SFITER_FRAMELESS_METHOD` case of Filter in GC mode from the label
`ProcessFuncletsForGCReporting` on: the funclet-detection loop followed by
the funclet-skipping logic (1866-2169).  The source's `goto
ProcessFuncletsForGCReporting` re-entries are the recursive calls (bounded
by fuel). -/
def FramelessCaseGC (env : ExInfoEnv) (fr : GcFrame) :
    Nat → FilterIterLocals → GcFrameVerdict × GcFilterState
  | 0, L => (.fuelOut, L.st)
  | fuel + 1, L =>
    match RunProcessFunclets env fr (fuel + 1) L with
    | (_, true) => (.fuelOut, L.st)
    | (L, false) =>
      if L.st.fProcessNonFilterFunclet || L.st.fProcessIntermediaryNonFilterFunclet then
        if fr.hasBeenUnwound then
          -- the current frame has been unwound by an active exception
          -- (1885-1902): deliver it without reporting references
          let L := { L with
                       cf := { L.cf with fShouldCrawlframeReportGCReferences := false } }
          let L :=
            if fr.isFunclet && !L.fSkippingFunclet then
              { L with st := { L.st with fDidFuncletReportGCReferences := false } }
            else L
          match L.st.sfParent with
          | some p =>
            if IsUnwoundToTargetParentFrame fr p then
              -- reached the (unwound) parent while skipping (1922-1957)
              let L := { L with fSkippingFunclet := false }
              let L :=
                if L.st.fProcessIntermediaryNonFilterFunclet
                    || L.st.fProcessNonFilterFunclet then
                  { L with
                      cf := { L.cf with
                                fShouldParentToFuncletSkipReportingGCReferences := true },
                      st := ResetGCRefReportingState
                              { L.st with fDidFuncletReportGCReferences := true }
                              L.st.fProcessIntermediaryNonFilterFunclet }
                else L
              let L := { L with st := { L.st with sfParent := none } }
              if fr.isFunclet then
                FramelessCaseGC env fr fuel L
              else
                DeliverUnwound L
            else
              DeliverUnwound L
          | none => DeliverUnwound L
        else
          -- the current frame is live (1969-2136)
          let L :=
            match L.st.sfParent with
            | some p =>
              if IsUnwoundToTargetParentFrame fr p then
                -- reached the funclet's parent (1978-2057)
                let L :=
                  if L.st.fProcessIntermediaryNonFilterFunclet
                      || L.st.fProcessNonFilterFunclet then
                    if !L.st.fDidFuncletReportGCReferences then
                      if env.exInfoPresent
                          && (some env.callerOfActualHandlerSP == L.st.sfFuncletParent) then
                        -- the parent is handling the exception: force it to
                        -- report, using the unwind target PC (2006-2029)
                        { L with
                            cf := { L.cf with
                                      fShouldParentToFuncletSkipReportingGCReferences := false,
                                      fShouldParentFrameUseUnwindTargetPCforGCReporting := true },
                            st := ResetGCRefReportingState
                                    { L.st with fDidFuncletReportGCReferences := true }
                                    L.st.fProcessIntermediaryNonFilterFunclet }
                      else if !fr.isFunclet then
                        -- parent not handling and not a funclet (2030-2047)
                        let L :=
                          if L.st.fFuncletNotSeen then
                            { L with
                                cf := { L.cf with
                                          fShouldParentToFuncletReportSavedFuncletSlots := true },
                                st := { L.st with fFuncletNotSeen := false } }
                          else L
                        { L with
                            cf := { L.cf with
                                      fShouldParentToFuncletSkipReportingGCReferences := true },
                            st := ResetGCRefReportingState
                                    { L.st with fDidFuncletReportGCReferences := true }
                                    L.st.fProcessIntermediaryNonFilterFunclet }
                      else
                        -- parent is itself a funclet: keep skipping without
                        -- resetting the did-report tracking (2041-2043)
                        { L with
                            cf := { L.cf with
                                      fShouldParentToFuncletSkipReportingGCReferences := true },
                            st := ResetGCRefReportingState L.st
                                    L.st.fProcessIntermediaryNonFilterFunclet }
                    else
                      { L with
                          cf := { L.cf with
                                    fShouldParentToFuncletSkipReportingGCReferences := true },
                          st := ResetGCRefReportingState L.st
                                  L.st.fProcessIntermediaryNonFilterFunclet }
                  else L
                { L with st := { L.st with sfParent := none } }
              else L
            | none => L
          if L.st.sfParent == none && fr.isFunclet then
            -- hit another funclet: re-examine it (2060-2070)
            FramelessCaseGC env fr fuel L
          else if L.fSkipFuncletCallback then
            -- skipping frames between a funclet and its parent (2105-2136)
            if L.st.sfParent.isSome
                && L.st.forceReportingWhileSkipping == ForceGCReportingStage.Off then
              (.skipped, L.st)
            else
              let L :=
                if L.st.forceReportingWhileSkipping == ForceGCReportingStage.LookForManagedFrame then
                  { L with st := { L.st with
                                     forceReportingWhileSkipping := .LookForMarkerFrame } }
                else L
              (.deliver L.cf, L.st)
          else
            (.deliver L.cf, L.st)
      else
        -- no funclet processing active (2139-2150)
        let L :=
          if fr.hasBeenUnwound then
            { L with cf := { L.cf with fShouldCrawlframeReportGCReferences := false } }
          else L
        (.deliver L.cf, L.st)

/-- One iteration of `StackFrameIterator::Filter` for a frameless managed
frame in `GC_FUNCLET_REFERENCE_REPORTING` mode: the loop-top bookkeeping
(1614-1672: the first-`ExInfo` pass-2 simulation of an already-run finally
funclet, the crawl-flag defaults, and `fSkippingFunclet`), then the
`SFITER_FRAMELESS_METHOD` case. -/
def FilterFramelessFrame (fuel : Nat) (env : ExInfoEnv) (fr : GcFrame)
    (st : GcFilterState) : GcFrameVerdict × GcFilterState :=
  let st :=
    if env.exInfoPresent && decide (fr.sp > env.exInfoAddr) && !st.movedPastFirstExInfo then
      let st :=
        if env.passNumber == 2 && env.enclosingClauseSP.isSome
            && st.sfFuncletParent == none && env.lastReportedFuncletIP != 0 then
          { st with
              sfFuncletParent := env.enclosingClauseSP,
              sfParent := env.enclosingClauseSP,
              fProcessNonFilterFunclet := true,
              fDidFuncletReportGCReferences := false,
              fFuncletNotSeen := true }
        else st
      { st with movedPastFirstExInfo := true }
    else st
  let cf : GcCrawlFlags := ⟨false, true, false, false, false⟩
  FramelessCaseGC env fr fuel ⟨st, cf, true, st.sfParent.isSome⟩

end StackWalk

namespace StackWalk

lemma stackWalkFramesEx_abort_aux {Pos : Type} (f : Nat → StackWalkAction)
    (g : GSCookieState) (hg : CheckGSCookies g = true) :
    ∀ (steps : List (IterStep Pos)) (k c : Nat),
      k < steps.length →
      (∀ j, j < k → f (c + j) ≠ .SWA_ABORT) →
      (∀ st ∈ steps.take k, st.nextResult ≠ .SWA_FAILED) →
      f (c + k) = .SWA_ABORT →
      StackWalkFramesEx steps (countingCallback f) c g
        = some (.SWA_ABORT, (steps.take (k + 1)).map IterStep.pos) := by
  intro steps
  induction steps with
  | nil =>
    intro k c hk _ _ _
    simp at hk
  | cons step rest ih =>
    intro k c hk hbefore hnofail habort
    match k with
    | 0 =>
      simp only [Nat.add_zero] at habort
      simp [StackWalkFramesEx, MakeStackwalkerCallback, countingCallback, hg, habort]
    | k' + 1 =>
      have hstep : f c ≠ .SWA_ABORT := by
        have := hbefore 0 (Nat.succ_pos k')
        simpa using this
      have hnext : step.nextResult ≠ .SWA_FAILED := by
        apply hnofail
        simp [List.take_succ_cons]
      have hrestlen : k' < rest.length := by
        simpa using hk
      have hrestne : rest.isEmpty = false := by
        cases rest with
        | nil => simp at hrestlen
        | cons r rs => rfl
      have hrestbefore : ∀ j, j < k' → f (c + 1 + j) ≠ .SWA_ABORT := by
        intro j hj
        have := hbefore (j + 1) (Nat.succ_lt_succ hj)
        have harith : c + (j + 1) = c + 1 + j := by omega
        rwa [harith] at this
      have hrestnofail : ∀ st ∈ rest.take k', st.nextResult ≠ .SWA_FAILED := by
        intro st hst
        apply hnofail
        simp [List.take_succ_cons, hst]
      have habort1 : f (c + 1 + k') = .SWA_ABORT := by
        have harith : c + 1 + k' = c + (k' + 1) := by omega
        rwa [harith]
      have hrec := ih k' (c + 1) hrestlen hrestbefore hrestnofail habort1
      rw [StackWalkFramesEx]
      simp only [MakeStackwalkerCallback, countingCallback, hg, if_true, if_neg hstep,
        if_neg hnext, hrestne, Bool.false_eq_true, ite_false]
      rw [hrec]
      simp [List.take_succ_cons]

/-- C2: in `Thread::StackWalkFramesEx`, if the caller-supplied callback
returns `SWA_ABORT` at the (k+1)-st surfaced position (0-indexed `k`), having
not aborted earlier, and the iterator did not fail before that point, then
the walk delivers exactly the first k+1 positions (no later position is
visited) and returns `SWA_ABORT`, which is distinct from the failure status
`SWA_FAILED`. -/
theorem stackWalkFramesEx_abort_halts {Pos : Type}
    (steps : List (IterStep Pos)) (f : Nat → StackWalkAction) (g : GSCookieState)
    (k : Nat)
    (hg : CheckGSCookies g = true)
    (hk : k < steps.length)
    (hbefore : ∀ j, j < k → f j ≠ .SWA_ABORT)
    (hnofail : ∀ st ∈ steps.take k, st.nextResult ≠ .SWA_FAILED)
    (habort : f k = .SWA_ABORT) :
    StackWalkFramesEx steps (countingCallback f) 0 g
        = some (.SWA_ABORT, (steps.take (k + 1)).map IterStep.pos)
      ∧ StackWalkAction.SWA_ABORT ≠ StackWalkAction.SWA_FAILED := by
  refine ⟨?_, by decide⟩
  have hbefore0 : ∀ j, j < k → f (0 + j) ≠ .SWA_ABORT := by
    intro j hj
    simpa using hbefore j hj
  have habort0 : f (0 + k) = .SWA_ABORT := by simpa using habort
  exact stackWalkFramesEx_abort_aux f g hg steps k 0 hk hbefore0 hnofail habort0

/-- Witness for C2 at a concrete 3-position walk whose callback aborts at the
second position: exactly the first two positions are visited. -/
theorem stackWalkFramesEx_abort_halts_witness :
    StackWalkFramesEx
        [⟨(10 : Nat), SWA_DONE⟩, ⟨11, SWA_DONE⟩, ⟨12, SWA_DONE⟩]
        (countingCallback fun j => if j = 1 then .SWA_ABORT else .SWA_CONTINUE)
        0 ⟨none, 0, 7⟩
      = some (.SWA_ABORT, [10, 11]) := by
  have h := @stackWalkFramesEx_abort_halts Nat
    [⟨10, SWA_DONE⟩, ⟨11, SWA_DONE⟩, ⟨12, SWA_DONE⟩]
    (fun j => if j = 1 then .SWA_ABORT else .SWA_CONTINUE)
    ⟨none, 0, 7⟩ 1
    (by decide) (by decide) (by decide) (by decide) (by decide)
  simpa using h.1

/-- C3: `Thread::MakeStackwalkerCallback` re-validates the GSCookie guard
both before and after running the user callback — it yields a result only
when both `CrawlFrame::CheckGSCookies` validations pass and the result is
exactly the callback's —, and a walk over a context whose registered first
GSCookie value differs from the process GSCookie terminates the process
(`DoJITFailFast`, modelled as `none`) instead of returning any result. -/
theorem makeStackwalkerCallback_gscookie_failfast :
    (∀ (pos : Nat) (cb : Nat → Nat → GSCookieState → StackWalkAction × Nat × GSCookieState)
       (s : Nat) (g : GSCookieState) (r : StackWalkAction × Nat × GSCookieState),
        MakeStackwalkerCallback pos cb s g = some r →
          CheckGSCookies g = true ∧ CheckGSCookies r.2.2 = true ∧ r = cb pos s g)
    ∧ (∀ (steps : List (IterStep Nat))
         (cb : Nat → Nat → GSCookieState → StackWalkAction × Nat × GSCookieState)
         (s : Nat) (g : GSCookieState) (v : Nat),
        steps ≠ [] → g.firstCookie = some v → v ≠ g.processCookie →
          StackWalkFramesEx steps cb s g = none) := by
  constructor
  · intro pos cb s g r hr
    by_cases hpre : CheckGSCookies g
    · by_cases hpost : CheckGSCookies (cb pos s g).2.2
      · refine ⟨hpre, ?_, ?_⟩ <;>
          · simp only [MakeStackwalkerCallback, hpre, if_true, hpost] at hr
            simp_all
      · simp [MakeStackwalkerCallback, hpre, hpost] at hr
    · simp [MakeStackwalkerCallback, hpre] at hr
  · intro steps cb s g v hne hfirst hv
    have hcheck : CheckGSCookies g = false := by
      simp [CheckGSCookies, hfirst]
      intro hcontr
      exact absurd hcontr hv
    match steps with
    | step :: rest =>
      simp [StackWalkFramesEx, MakeStackwalkerCallback, hcheck]

/-- Witness for C3: a concrete corrupted guard (registered cookie value 5,
process cookie 7) makes a one-position walk fail fast, returning no result. -/
theorem makeStackwalkerCallback_gscookie_failfast_witness :
    StackWalkFramesEx [⟨(0 : Nat), SWA_DONE⟩]
        (fun _ s g => (.SWA_CONTINUE, s, g)) 0 ⟨some 5, 0, 7⟩ = none :=
  makeStackwalkerCallback_gscookie_failfast.2
    [⟨0, SWA_DONE⟩] (fun _ s g => (.SWA_CONTINUE, s, g)) 0 ⟨some 5, 0, 7⟩ 5
    (List.cons_ne_nil _ _) rfl (by decide)

end StackWalk

namespace StackWalk

/-- C4: if the code manager's `UnwindStackFrame` fails while advancing past a
frameless managed frame, `StackFrameIterator::NextRaw` returns `SWA_FAILED`
without advancing the iterator state, and the `StackWalkFramesEx` driver loop
surfaces an `SWA_FAILED` result from `Next` to its caller immediately, so a
failed walk is reported as `SWA_FAILED`, which differs from the
successful-completion value `SWA_DONE`. -/
theorem nextRaw_unwind_failure_swa_failed :
    (∀ (env : WalkEnv) (flags : WalkFlags) (st : IterState),
        st.frameState = .SFITER_FRAMELESS_METHOD →
        env.UnwindStackFrame st.rd = none →
        NextRaw env flags st = .swaFailed st)
    ∧ (∀ (step : IterStep Nat) (rest : List (IterStep Nat))
         (cb : Nat → Nat → GSCookieState → StackWalkAction × Nat × GSCookieState)
         (s : Nat) (g : GSCookieState),
        CheckGSCookies g = true →
        CheckGSCookies (cb step.pos s g).2.2 = true →
        (cb step.pos s g).1 ≠ .SWA_ABORT →
        step.nextResult = .SWA_FAILED →
        StackWalkFramesEx (step :: rest) cb s g = some (.SWA_FAILED, [step.pos]))
    ∧ StackWalkAction.SWA_FAILED ≠ SWA_DONE := by
  refine ⟨?_, ?_, by decide⟩
  · intro env flags st hstate hunwind
    simp [NextRaw, hstate, hunwind]
  · intro step rest cb s g hg hpost habort hnext
    rcases hr : cb step.pos s g with ⟨swa, s1, g1⟩
    rw [hr] at hpost habort
    simp only at hpost habort
    simp [StackWalkFramesEx, MakeStackwalkerCallback, hg, hr, hpost, habort, hnext]

/-- Witness for C4 at concrete inputs: a failing unwinder makes `NextRaw`
return `SWA_FAILED` with the state unchanged, and a driver step whose `Next`
fails yields `SWA_FAILED` with only the already-surfaced position visited. -/
theorem nextRaw_unwind_failure_swa_failed_witness :
    NextRaw
        ⟨fun _ => false, fun _ => none, fun _ => none, 0, 1000, false⟩
        ⟨false, false, false⟩
        ⟨.SFITER_FRAMELESS_METHOD, [], ⟨10, 150, 160⟩, true, false,
          true, false, false, false, ⟨none, 0, 7⟩⟩
      = .swaFailed ⟨.SFITER_FRAMELESS_METHOD, [], ⟨10, 150, 160⟩, true, false,
          true, false, false, false, ⟨none, 0, 7⟩⟩
    ∧ StackWalkFramesEx [⟨(3 : Nat), .SWA_FAILED⟩]
        (fun _ s g => (.SWA_CONTINUE, s, g)) 0 ⟨none, 0, 7⟩
      = some (.SWA_FAILED, [3]) :=
  ⟨nextRaw_unwind_failure_swa_failed.1 _ _ _ rfl rfl,
   nextRaw_unwind_failure_swa_failed.2.1 ⟨3, .SWA_FAILED⟩ []
     (fun _ s g => (.SWA_CONTINUE, s, g)) 0 ⟨none, 0, 7⟩
     (by decide) (by decide) (by decide) rfl⟩

/-- C5: in speculative mode (`PROFILER_DO_STACK_SNAPSHOT`), an unwound stack
pointer that falls outside the cached stack bounds makes `NextRaw` return the
ordinary failure `SWA_FAILED` — never an assertion violation and never a
process abort —, while in non-speculative mode the same out-of-range value
fires the internal-consistency `_ASSERTE`. -/
theorem nextRaw_speculative_out_of_range
    (env : WalkEnv) (flags : WalkFlags) (st : IterState) (rd2 : RegDisplay)
    (hstate : st.frameState = .SFITER_FRAMELESS_METHOD)
    (hunwind : env.UnwindStackFrame st.rd = some rd2)
    (halt : env.isExecutingOnAltStack = false)
    (hrange : rd2.sp < env.stackLimit ∨ env.stackBase ≤ rd2.sp) :
    (flags.profilerDoStackSnapshot = true →
        NextRaw env flags st = .swaFailed { st with rd := rd2 }
      ∧ (∀ st2, NextRaw env flags st ≠ .assertViolation st2)
      ∧ NextRaw env flags st ≠ .failFast)
    ∧ (flags.profilerDoStackSnapshot = false →
        NextRaw env flags st = .assertViolation { st with rd := rd2 }) := by
  have hmain : NextRaw env flags st =
      (if flags.profilerDoStackSnapshot then
          WalkOutcome.swaFailed { st with rd := rd2 }
        else
          WalkOutcome.assertViolation { st with rd := rd2 }) := by
    by_cases hlim : env.stackLimit ≤ rd2.sp
    · have hhigh : env.stackBase ≤ rd2.sp := by
        rcases hrange with hlow | hhigh
        · omega
        · exact hhigh
      have h3 : ¬(rd2.sp < env.stackBase) := by omega
      simp [NextRaw, hstate, hunwind, halt, hlim, h3]
    · simp [NextRaw, hstate, hunwind, halt, hlim]
  constructor
  · intro hspec
    rw [hmain, if_pos hspec]
    exact ⟨rfl, fun st2 => by simp, by simp⟩
  · intro hspec
    rw [hmain, hspec]
    simp

/-- Witness for C5 at a concrete speculative walk whose unwinder produces an
SP below the cached stack limit: the outcome is `SWA_FAILED`. -/
theorem nextRaw_speculative_out_of_range_witness :
    NextRaw
        ⟨fun _ => true, fun _ => some ⟨40, 5, 300⟩, fun _ => none, 100, 1000, false⟩
        ⟨true, false, false⟩
        ⟨.SFITER_FRAMELESS_METHOD, [], ⟨10, 150, 160⟩, true, false,
          true, false, false, false, ⟨none, 0, 7⟩⟩
      = .swaFailed ⟨.SFITER_FRAMELESS_METHOD, [], ⟨40, 5, 300⟩, true, false,
          true, false, false, false, ⟨none, 0, 7⟩⟩ :=
  ((nextRaw_speculative_out_of_range _ _ _ ⟨40, 5, 300⟩ rfl rfl rfl
      (Or.inl (by decide))).1 rfl).1

end StackWalk

namespace StackWalk

/-- Counterexample to C9 as stated: a successful advance of `NextRaw` out of
`SFITER_FRAMELESS_METHOD` whose unwound PC resolves to managed code does
*not* re-enter `SFITER_FRAMELESS_METHOD` when an explicit frame is contained
in the unwound-to managed frame (frame address 250 below the caller SP 300):
the iterator enters `SFITER_SKIPPED_FRAME_FUNCTION` instead, which is
neither of the two states the claim allows. -/
theorem nextRaw_frameless_transition_counterexample :
    (WalkEnv.isManagedCode
        ⟨fun _ => true, fun _ => some ⟨40, 200, 300⟩, fun _ => none, 100, 1000, false⟩
        40 = true)
    ∧ WalkOutcome.frameStateOf
        (NextRaw
          ⟨fun _ => true, fun _ => some ⟨40, 200, 300⟩, fun _ => none, 100, 1000, false⟩
          ⟨false, false, false⟩
          ⟨.SFITER_FRAMELESS_METHOD, [250], ⟨10, 150, 160⟩, true, false,
            true, false, false, false, ⟨none, 0, 7⟩⟩)
        = some .SFITER_SKIPPED_FRAME_FUNCTION
    ∧ (FrameState.SFITER_SKIPPED_FRAME_FUNCTION ≠ .SFITER_FRAMELESS_METHOD)
    ∧ (FrameState.SFITER_SKIPPED_FRAME_FUNCTION ≠ .SFITER_NATIVE_MARKER_FRAME) := by
  refine ⟨rfl, ?_, by decide, by decide⟩
  decide

/-- C9 (amended): for every successful advance of the iterator out of
`SFITER_FRAMELESS_METHOD`, exactly one managed frame is unwound via the code
manager's metadata (the resulting register display is the unwinder's output);
then, if the new PC does not resolve to managed code, the iterator enters
`SFITER_NATIVE_MARKER_FRAME`; if it does and an explicit frame is contained
in the unwound-to managed frame (its address below the caller SP) and the
walk does not handle skipped frames itself, the iterator enters
`SFITER_SKIPPED_FRAME_FUNCTION`; otherwise it re-enters
`SFITER_FRAMELESS_METHOD`. -/
theorem nextRaw_frameless_transition
    (env : WalkEnv) (flags : WalkFlags) (st : IterState) (rd2 : RegDisplay)
    (hstate : st.frameState = .SFITER_FRAMELESS_METHOD)
    (hunwind : env.UnwindStackFrame st.rd = some rd2)
    (hlimit : env.isExecutingOnAltStack = true ∨ env.stackLimit ≤ rd2.sp)
    (hbase : env.isExecutingOnAltStack = true ∨ rd2.sp < env.stackBase)
    (hgs : CheckGSCookies st.gs = true)
    (hcookie : env.GetGSCookieAddr rd2 = none) :
    (NextRaw env flags st).isContinue = true
    ∧ (NextRaw env flags st).rdOf = some rd2
    ∧ (env.isManagedCode rd2.ip = false →
        (NextRaw env flags st).frameStateOf = some .SFITER_NATIVE_MARKER_FRAME)
    ∧ (env.isManagedCode rd2.ip = true →
        hasSkippedFrame st.frames rd2.callerSP = true →
        flags.handleSkippedFrames = false →
        (NextRaw env flags st).frameStateOf = some .SFITER_SKIPPED_FRAME_FUNCTION)
    ∧ (env.isManagedCode rd2.ip = true →
        (hasSkippedFrame st.frames rd2.callerSP = false ∨ flags.handleSkippedFrames = true) →
        (NextRaw env flags st).frameStateOf = some .SFITER_FRAMELESS_METHOD) := by
  have hb1 : (env.isExecutingOnAltStack || decide (rd2.sp ≥ env.stackLimit)) = true := by
    rcases hlimit with h | h <;> simp [h]
  have hb2 : (env.isExecutingOnAltStack || decide (rd2.sp < env.stackBase)) = true := by
    rcases hbase with h | h <;> simp [h]
  by_cases hm : env.isManagedCode rd2.ip
  · -- the unwound PC is managed code: ProcessCurrentFrame classifies the frame
    have hres : NextRaw env flags st =
        ProcessCurrentFrameMain env flags
          { st with rd := rd2, isFirst := false, isInterrupted := false,
                    hasFaulted := false, isIPadjusted := false,
                    frameState := .SFITER_UNINITIALIZED, isFrameless := true } := by
      simp [NextRaw, hstate, hunwind, hb1, hb2, PostProcessingForManagedFrames,
        ProcessIp, hm, ProcessCurrentFrame, hgs, hstate]
    rcases hfr : st.frames with _ | ⟨fr, frs⟩
    · -- no explicit frames: never a skipped frame, re-enter the frameless state
      have : NextRaw env flags st =
          .swaContinue
            { st with rd := rd2, isFirst := false, isInterrupted := false,
                      hasFaulted := false, isIPadjusted := false,
                      frameState := .SFITER_FRAMELESS_METHOD, isFrameless := true } := by
        rw [hres]
        simp [ProcessCurrentFrameMain, IterIsValid, CheckForSkippedFrames, hfr,
          PreProcessingForManagedFrames, hcookie]
      simp [this, WalkOutcome.isContinue, WalkOutcome.rdOf, WalkOutcome.frameStateOf,
        hm, hasSkippedFrame, hfr]
    · by_cases hlt : fr < rd2.callerSP
      · by_cases hhandle : flags.handleSkippedFrames
        · -- skipped frames are popped by the walk itself; frameless state re-entered
          have : NextRaw env flags st =
              .swaContinue
                { st with rd := rd2, isFirst := false, isInterrupted := false,
                          hasFaulted := false, isIPadjusted := false,
                          frames := (fr :: frs).dropWhile (fun a => a < rd2.callerSP),
                          frameState := .SFITER_FRAMELESS_METHOD, isFrameless := true } := by
            rw [hres]
            simp [ProcessCurrentFrameMain, IterIsValid, CheckForSkippedFrames, hfr,
              hlt, hhandle, PreProcessingForManagedFrames, hcookie]
          simp [this, WalkOutcome.isContinue, WalkOutcome.rdOf, WalkOutcome.frameStateOf,
            hm, hhandle]
        · -- a skipped explicit frame stops the iterator first
          have : NextRaw env flags st =
              .swaContinue
                { st with rd := rd2, isFirst := false, isInterrupted := false,
                          hasFaulted := false, isIPadjusted := false,
                          frameState := .SFITER_SKIPPED_FRAME_FUNCTION, isFrameless := false } := by
            rw [hres]
            simp [ProcessCurrentFrameMain, IterIsValid, CheckForSkippedFrames, hfr,
              hlt, hhandle]
          simp [this, WalkOutcome.isContinue, WalkOutcome.rdOf, WalkOutcome.frameStateOf,
            hm, hasSkippedFrame, hfr, hlt, hhandle]
      · -- leaf explicit frame above the caller SP: nothing was skipped
        have : NextRaw env flags st =
            .swaContinue
              { st with rd := rd2, isFirst := false, isInterrupted := false,
                        hasFaulted := false, isIPadjusted := false,
                        frameState := .SFITER_FRAMELESS_METHOD, isFrameless := true } := by
          rw [hres]
          simp [ProcessCurrentFrameMain, IterIsValid, CheckForSkippedFrames, hfr,
            hlt, PreProcessingForManagedFrames, hcookie]
        simp [this, WalkOutcome.isContinue, WalkOutcome.rdOf, WalkOutcome.frameStateOf,
          hm, hasSkippedFrame, hfr, hlt]
  · -- the unwound PC is not managed code: stop at a native marker frame
    have : NextRaw env flags st =
        .swaContinue
          { st with rd := rd2, isFirst := false, isInterrupted := false,
                    hasFaulted := false, isIPadjusted := false,
                    frameState := .SFITER_NATIVE_MARKER_FRAME, isFrameless := false,
                    isNativeMarker := true } := by
      simp [NextRaw, hstate, hunwind, hb1, hb2, PostProcessingForManagedFrames,
        ProcessIp, hm]
    simp [this, WalkOutcome.isContinue, WalkOutcome.rdOf, WalkOutcome.frameStateOf, hm]

/-- Witness for the amended C9 at a concrete walk whose unwound PC lands in
native code: the iterator enters the native marker state. -/
theorem nextRaw_frameless_transition_witness :
    WalkOutcome.frameStateOf
        (NextRaw
          ⟨fun _ => false, fun _ => some ⟨40, 200, 300⟩, fun _ => none, 100, 1000, false⟩
          ⟨false, false, false⟩
          ⟨.SFITER_FRAMELESS_METHOD, [], ⟨10, 150, 160⟩, true, false,
            true, false, false, false, ⟨none, 0, 7⟩⟩)
      = some .SFITER_NATIVE_MARKER_FRAME :=
  (nextRaw_frameless_transition
      ⟨fun _ => false, fun _ => some ⟨40, 200, 300⟩, fun _ => none, 100, 1000, false⟩
      ⟨false, false, false⟩
      ⟨.SFITER_FRAMELESS_METHOD, [], ⟨10, 150, 160⟩, true, false,
        true, false, false, false, ⟨none, 0, 7⟩⟩
      ⟨40, 200, 300⟩ rfl rfl
      (Or.inr (by decide)) (Or.inr (by decide)) rfl rfl).2.2.1 rfl

end StackWalk

namespace Patchpoint

/-- Counterexample to C8 as stated: on AMD64 the stack pointer captured from
the original method frame (here 32) is *not* preserved bit-for-bit into the
transition context — the installed SP is 24, eight bytes lower, simulating
the return-address push of a call. -/
theorem osrTransition_sp_counterexample :
    (OsrContext.sp ⟨10, 32, 77, 0⟩ = 32)
    ∧ (osrTransitionContext true ⟨10, 32, 77, 0⟩ ⟨20, 64, 88, 0⟩ 5000).sp = 24
    ∧ (24 : Nat) ≠ 32 := by
  refine ⟨rfl, ?_, by decide⟩
  decide

/-- C8 (amended): the OSR transition rewrites the program counter to the
optimized entry point; on AMD64 the frame pointer is preserved bit-for-bit
from the captured original-method value and the installed stack pointer is
the captured value minus 8 (the simulated return-address push, the shadow
stack pointer being decremented alike when enabled); on other targets the
captured stack pointer is preserved exactly and the frame pointer is the one
produced by the unwind to the caller. -/
theorem osrTransitionContext_spec (amd64 : Bool) (ctxA ctxC : OsrContext)
    (code : Nat) :
    (osrTransitionContext amd64 ctxA ctxC code).ip = code
    ∧ (amd64 = true →
        (osrTransitionContext amd64 ctxA ctxC code).fp = ctxA.fp
        ∧ (osrTransitionContext amd64 ctxA ctxC code).sp = ctxA.sp - 8
        ∧ (osrTransitionContext amd64 ctxA ctxC code).ssp
            = (if ctxC.ssp ≠ 0 then ctxC.ssp - 8 else ctxC.ssp))
    ∧ (amd64 = false →
        (osrTransitionContext amd64 ctxA ctxC code).sp = ctxA.sp
        ∧ (osrTransitionContext amd64 ctxA ctxC code).fp = ctxC.fp
        ∧ (osrTransitionContext amd64 ctxA ctxC code).ssp = ctxC.ssp) := by
  cases amd64 with
  | false => refine ⟨rfl, by simp, fun _ => ⟨rfl, rfl, rfl⟩⟩
  | true =>
    refine ⟨rfl, fun _ => ?_, by simp⟩
    by_cases hssp : ctxC.ssp ≠ 0 <;>
      simp [osrTransitionContext, hssp]

/-- Witness for the amended C8 on AMD64 with shadow stacks enabled: FP is
carried over exactly, SP and SSP are both decremented by 8, and the IP is the
optimized entry point. -/
theorem osrTransitionContext_spec_witness :
    (osrTransitionContext true ⟨10, 32, 77, 96⟩ ⟨20, 64, 88, 96⟩ 5000).ip = 5000
    ∧ (osrTransitionContext true ⟨10, 32, 77, 96⟩ ⟨20, 64, 88, 96⟩ 5000).fp = 77
    ∧ (osrTransitionContext true ⟨10, 32, 77, 96⟩ ⟨20, 64, 88, 96⟩ 5000).sp = 32 - 8
    ∧ (osrTransitionContext true ⟨10, 32, 77, 96⟩ ⟨20, 64, 88, 96⟩ 5000).ssp
        = (if (96 : Nat) ≠ 0 then 96 - 8 else 96) := by
  have h := osrTransitionContext_spec true ⟨10, 32, 77, 96⟩ ⟨20, 64, 88, 96⟩ 5000
  exact ⟨h.1, (h.2.1 rfl).1, (h.2.1 rfl).2.1, (h.2.1 rfl).2.2⟩

/-- C10: `JIT_PatchpointWorkerWorkerWithPolicy` preserves the thread's last
OS error code across its entire execution on both exits — the normal return
path and the non-returning transfer into the optimized code — no matter how
the policy body clobbered it in between. -/
theorem jitPatchpointWorker_preserves_lastError
    (lastErrorOnEntry bodyLastError osrMethodCode : Nat) (amd64 : Bool)
    (ctxAtPatchpoint callerCtx : OsrContext) :
    (JIT_PatchpointWorkerWorkerWithPolicy lastErrorOnEntry bodyLastError
        osrMethodCode amd64 ctxAtPatchpoint callerCtx).lastErrorOf = lastErrorOnEntry := by
  by_cases h : osrMethodCode = 0 <;>
    simp [JIT_PatchpointWorkerWorkerWithPolicy, PatchpointExit.lastErrorOf, h]

end Patchpoint

namespace Patchpoint

lemma threadStep_analysis {hitLimit : Int} {pp : PerPatchpointInfo} {t : ThreadProg}
    {pp2 : PerPatchpointInfo} {t2 : ThreadProg}
    (h : ThreadStep hitLimit pp t pp2 t2) :
    (pp.flagTriggered = true → pp2.flagTriggered = true)
    ∧ (LocalInvalidConsistent pp t → pp.flagInvalid = true → pp2.flagInvalid = true)
    ∧ (pp2.osrMethodCode ≠ pp.osrMethodCode →
        t.inWinnerRegion = true ∧ t2.inWinnerRegion = false)
    ∧ (t.inWinnerRegion = false → t2.inWinnerRegion = true →
        pp.flagTriggered = false ∧ pp2.flagTriggered = true
          ∧ pp2.osrMethodCode = pp.osrMethodCode)
    ∧ (LocalOsrAgree pp t → LocalOsrAgree pp2 t2)
    ∧ (LocalInvalidConsistent pp t → LocalInvalidConsistent pp2 t2) := by
  cases h with
  | opt h =>
    cases h <;>
      simp_all [LocalOsrAgree, LocalInvalidConsistent, ThreadProg.inWinnerRegion,
        OptThread.inWinnerRegion, ReqThread.inWinnerRegion]
  | req h =>
    cases h <;>
      simp_all [LocalOsrAgree, LocalInvalidConsistent, ThreadProg.inWinnerRegion,
        OptThread.inWinnerRegion, ReqThread.inWinnerRegion]

lemma localOsrAgree_stable {u : ThreadProg} {pp pp2 : PerPatchpointInfo}
    (hagree : LocalOsrAgree pp u)
    (h : pp2.osrMethodCode = pp.osrMethodCode ∨ pp.osrMethodCode = 0) :
    LocalOsrAgree pp2 u := by
  have key : ∀ r : Nat, (r ≠ 0 → r = pp.osrMethodCode) → (r ≠ 0 → r = pp2.osrMethodCode) := by
    intro r hr hne
    rcases h with heq | h0
    · rw [heq]
      exact hr hne
    · exact absurd (h0 ▸ hr hne) hne
  rcases u with t | t <;> cases t <;>
    first
      | exact key _ hagree
      | trivial

lemma localInvalidConsistent_stable {u : ThreadProg} {pp pp2 : PerPatchpointInfo}
    (hc : LocalInvalidConsistent pp u)
    (hmono : pp.flagInvalid = true → pp2.flagInvalid = true) :
    LocalInvalidConsistent pp2 u := by
  rcases u with t | t
  · cases t <;> simp_all [LocalInvalidConsistent]
  · cases t <;> simp_all [LocalInvalidConsistent]

lemma osrInv_init {c : OsrConfig} (h : CleanInit c) : OsrInv c := by
  obtain ⟨htrig, hinv, hosr, hthreads⟩ := h
  have hstart : ∀ i : Nat, ∀ hi : i < c.threads.length,
      c.threads[i] = .opt .start ∨ c.threads[i] = .req .start := by
    intro i hi
    exact hthreads _ (List.getElem_mem hi)
  constructor
  · intro _
    refine ⟨?_, hosr⟩
    intro i hi
    rcases hstart i hi with h1 | h1 <;>
      simp [h1, ThreadProg.inWinnerRegion, OptThread.inWinnerRegion,
        ReqThread.inWinnerRegion]
  · intro i j hi hj _ hwi
    rcases hstart i hi with h1 | h1 <;>
      simp [h1, ThreadProg.inWinnerRegion, OptThread.inWinnerRegion,
        ReqThread.inWinnerRegion] at hwi
  · intro i hi hwi
    rcases hstart i hi with h1 | h1 <;>
      simp [h1, ThreadProg.inWinnerRegion, OptThread.inWinnerRegion,
        ReqThread.inWinnerRegion] at hwi
  · intro i hi
    rcases hstart i hi with h1 | h1 <;> simp [h1, LocalOsrAgree]
  · intro i hi
    rcases hstart i hi with h1 | h1 <;> simp [h1, LocalInvalidConsistent]

end Patchpoint

namespace Patchpoint

lemma osrInv_preserved (hitLimit : Int) {c c2 : OsrConfig}
    (inv : OsrInv c) (h : SysStep hitLimit c c2) : OsrInv c2 := by
  obtain ⟨pp, threads⟩ := c
  obtain ⟨pp2, threads2⟩ := c2
  obtain ⟨i, t2, hi, hstep, hset⟩ := h
  simp only at hi hstep hset
  subst hset
  obtain ⟨hmonoT, hmonoI, hosrCh, hentry, hagreeStep, hinvStep⟩ := threadStep_analysis hstep
  have hosrEq : pp2.osrMethodCode = pp.osrMethodCode
      ∨ (threads[i].inWinnerRegion = true ∧ t2.inWinnerRegion = false) := by
    by_cases hch : pp2.osrMethodCode = pp.osrMethodCode
    · exact Or.inl hch
    · exact Or.inr (hosrCh hch)
  have hosr0 : pp2.osrMethodCode ≠ pp.osrMethodCode → pp.osrMethodCode = 0 := by
    intro hch
    exact inv.winnerOsrNull i hi (hosrCh hch).1
  have hosrPres : ∀ j : Nat, ∀ hj : j < threads.length, j ≠ i →
      threads[j].inWinnerRegion = true → pp2.osrMethodCode = pp.osrMethodCode := by
    intro j hj hne hw
    rcases hosrEq with heq | ⟨hwi, _⟩
    · exact heq
    · exact absurd (inv.mutex i j hi hj (fun he => hne he.symm) hwi) (by simp [hw])
  constructor
  · -- preWinner
    intro htrig2
    replace htrig2 : pp2.flagTriggered = false := htrig2
    have htrig : pp.flagTriggered = false := by
      cases htr : pp.flagTriggered
      · rfl
      · exact absurd (hmonoT htr) (by simp [htrig2])
    obtain ⟨hnw, hosrZ⟩ := inv.preWinner htrig
    constructor
    · intro j hj
      have hj' : j < threads.length := by simpa using hj
      by_cases hji : j = i
      · subst hji
        rw [List.getElem_set_self]
        cases hw2 : t2.inWinnerRegion
        · rfl
        · exact absurd (hentry (hnw j hj') hw2).2.1 (by simp [htrig2])
      · rw [List.getElem_set_ne (fun he => hji he.symm)]
        exact hnw j hj'
    · rcases hosrEq with heq | ⟨hwi, _⟩
      · rw [heq]
        exact hosrZ
      · exact absurd (hnw i hi) (by simp [hwi])
  · -- mutex
    intro a b ha hb hab hwa
    have ha' : a < threads.length := by simpa using ha
    have hb' : b < threads.length := by simpa using hb
    by_cases haj : a = i
    · subst haj
      rw [List.getElem_set_self] at hwa
      by_cases hbj : b = a
      · exact absurd hbj.symm hab
      · rw [List.getElem_set_ne (fun he => hbj he.symm)]
        cases hwt : threads[a].inWinnerRegion
        · exact (inv.preWinner (hentry hwt hwa).1).1 b hb'
        · exact inv.mutex a b ha' hb' hab hwt
    · rw [List.getElem_set_ne (fun he => haj he.symm)] at hwa
      by_cases hbj : b = i
      · subst hbj
        rw [List.getElem_set_self]
        cases hw2 : t2.inWinnerRegion
        · rfl
        · cases hwt : threads[b].inWinnerRegion
          · exact absurd hwa (by simp [(inv.preWinner (hentry hwt hw2).1).1 a ha'])
          · exact absurd hwa
              (by simp [inv.mutex b a hb' ha' (fun he => hab he.symm) hwt])
      · rw [List.getElem_set_ne (fun he => hbj he.symm)]
        exact inv.mutex a b ha' hb' hab hwa
  · -- winnerOsrNull
    intro j hj hw
    have hj' : j < threads.length := by simpa using hj
    by_cases hji : j = i
    · subst hji
      rw [List.getElem_set_self] at hw
      have hosrU : pp2.osrMethodCode = pp.osrMethodCode := by
        rcases hosrEq with heq | ⟨_, hw2⟩
        · exact heq
        · exact absurd hw (by simp [hw2])
      rw [hosrU]
      cases hwt : threads[j].inWinnerRegion
      · exact (inv.preWinner (hentry hwt hw).1).2
      · exact inv.winnerOsrNull j hj' hwt
    · rw [List.getElem_set_ne (fun he => hji he.symm)] at hw
      rw [hosrPres j hj' hji hw]
      exact inv.winnerOsrNull j hj' hw
  · -- agree
    intro j hj
    have hj' : j < threads.length := by simpa using hj
    by_cases hji : j = i
    · subst hji
      rw [List.getElem_set_self]
      exact hagreeStep (inv.agree j hj')
    · rw [List.getElem_set_ne (fun he => hji he.symm)]
      apply localOsrAgree_stable (inv.agree j hj')
      by_cases hch : pp2.osrMethodCode = pp.osrMethodCode
      · exact Or.inl hch
      · exact Or.inr (hosr0 hch)
  · -- invalidConsistent
    intro j hj
    have hj' : j < threads.length := by simpa using hj
    by_cases hji : j = i
    · subst hji
      rw [List.getElem_set_self]
      exact hinvStep (inv.invalidConsistent j hj')
    · rw [List.getElem_set_ne (fun he => hji he.symm)]
      exact localInvalidConsistent_stable (inv.invalidConsistent j hj')
        (hmonoI (inv.invalidConsistent i hi))

lemma osrInv_reach (hitLimit : Int) {c0 c : OsrConfig}
    (h0 : CleanInit c0) (hr : SysReach hitLimit c0 c) : OsrInv c := by
  induction hr with
  | refl => exact osrInv_init h0
  | tail _ hstep ih => exact osrInv_preserved hitLimit ih hstep

lemma sysStep_invalid_mono (hitLimit : Int) {c c2 : OsrConfig}
    (inv : OsrInv c) (h : SysStep hitLimit c c2) :
    c.pp.flagInvalid = true → c2.pp.flagInvalid = true := by
  obtain ⟨i, t2, hi, hstep, _⟩ := h
  exact (threadStep_analysis hstep).2.1 (inv.invalidConsistent i hi)

lemma sysStep_osr_permanent (hitLimit : Int) {c c2 : OsrConfig}
    (inv : OsrInv c) (h : SysStep hitLimit c c2) :
    c.pp.osrMethodCode ≠ 0 → c2.pp.osrMethodCode = c.pp.osrMethodCode := by
  intro hne
  obtain ⟨i, t2, hi, hstep, _⟩ := h
  by_cases hch : c2.pp.osrMethodCode = c.pp.osrMethodCode
  · exact hch
  · exact absurd (inv.winnerOsrNull i hi ((threadStep_analysis hstep).2.2.1 hch).1) hne

lemma sysReach_invalid_mono (hitLimit : Int) {c0 c c2 : OsrConfig}
    (h0 : CleanInit c0) (hr : SysReach hitLimit c0 c) (hr2 : SysReach hitLimit c c2) :
    c.pp.flagInvalid = true → c2.pp.flagInvalid = true := by
  induction hr2 with
  | refl => exact id
  | tail hab hbc ih =>
    intro hinv
    exact sysStep_invalid_mono hitLimit
      (osrInv_reach hitLimit h0 (hr.trans hab)) hbc (ih hinv)

lemma sysReach_osr_permanent (hitLimit : Int) {c0 c c2 : OsrConfig}
    (h0 : CleanInit c0) (hr : SysReach hitLimit c0 c) (hr2 : SysReach hitLimit c c2) :
    c.pp.osrMethodCode ≠ 0 → c2.pp.osrMethodCode = c.pp.osrMethodCode := by
  induction hr2 with
  | refl => intro _; rfl
  | tail hab hbc ih =>
    intro hne
    rw [sysStep_osr_permanent hitLimit (osrInv_reach hitLimit h0 (hr.trans hab)) hbc
      (by rw [ih hne]; exact hne)]
    exact ih hne

end Patchpoint

namespace Patchpoint

lemma retOf_agree {pp : PerPatchpointInfo} {u : ThreadProg} {r : Nat}
    (hret : u.retOf = some r) (hagree : LocalOsrAgree pp u) (hne : r ≠ 0) :
    r = pp.osrMethodCode := by
  rcases u with t | t <;> cases t <;> simp [ThreadProg.retOf] at hret <;>
    (subst hret; exact hagree hne)

lemma exampleReach6 : SysReach 10
    ⟨⟨false, false, 0, 0⟩, [.req .start, .opt .start]⟩
    ⟨⟨true, false, 0, 0⟩, [.req .compile, .opt .start]⟩ := by
  have s1 : SysStep 10 ⟨⟨false, false, 0, 0⟩, [.req .start, .opt .start]⟩
      ⟨⟨false, false, 0, 0⟩, [.req .loopHead, .opt .start]⟩ :=
    ⟨0, .req .loopHead, by decide, .req (.entryOk _ rfl), rfl⟩
  have s2 : SysStep 10 ⟨⟨false, false, 0, 0⟩, [.req .loopHead, .opt .start]⟩
      ⟨⟨false, false, 0, 0⟩, [.req .loopInvalidCheck, .opt .start]⟩ :=
    ⟨0, .req .loopInvalidCheck, by decide, .req (.loopIter _ rfl), rfl⟩
  have s3 : SysStep 10 ⟨⟨false, false, 0, 0⟩, [.req .loopInvalidCheck, .opt .start]⟩
      ⟨⟨false, false, 0, 0⟩, [.req .loopFlagsRead, .opt .start]⟩ :=
    ⟨0, .req .loopFlagsRead, by decide, .req (.loopValid _ rfl), rfl⟩
  have s4 : SysStep 10 ⟨⟨false, false, 0, 0⟩, [.req .loopFlagsRead, .opt .start]⟩
      ⟨⟨false, false, 0, 0⟩, [.req (.loopNewFlagsRead false), .opt .start]⟩ :=
    ⟨0, .req (.loopNewFlagsRead false), by decide, .req (.flagsReadGo _ rfl), rfl⟩
  have s5 : SysStep 10 ⟨⟨false, false, 0, 0⟩, [.req (.loopNewFlagsRead false), .opt .start]⟩
      ⟨⟨false, false, 0, 0⟩, [.req (.loopCas false false), .opt .start]⟩ :=
    ⟨0, .req (.loopCas false false), by decide, .req (.newFlagsRead _ false), rfl⟩
  have s6 : SysStep 10 ⟨⟨false, false, 0, 0⟩, [.req (.loopCas false false), .opt .start]⟩
      ⟨⟨true, false, 0, 0⟩, [.req .compile, .opt .start]⟩ :=
    ⟨0, .req .compile, by decide, .req (.casWin _ false false rfl rfl), rfl⟩
  exact .head s1 (.head s2 (.head s3 (.head s4 (.head s5 (.head s6 .refl)))))

lemma exampleReach8 : SysReach 10
    ⟨⟨false, false, 0, 0⟩, [.req .start, .opt .start]⟩
    ⟨⟨true, true, 0, 0⟩, [.req .fatal, .opt .start]⟩ := by
  have s7 : SysStep 10 ⟨⟨true, false, 0, 0⟩, [.req .compile, .opt .start]⟩
      ⟨⟨true, false, 0, 0⟩, [.req .markInvalidFatal, .opt .start]⟩ :=
    ⟨0, .req .markInvalidFatal, by decide, .req (.compileFail _), rfl⟩
  have s8 : SysStep 10 ⟨⟨true, false, 0, 0⟩, [.req .markInvalidFatal, .opt .start]⟩
      ⟨⟨true, true, 0, 0⟩, [.req .fatal, .opt .start]⟩ :=
    ⟨0, .req .fatal, by decide, .req (.markInvalid _), rfl⟩
  exact exampleReach6.trans (.head s7 (.head s8 .refl))

/-- C7: the patchpoint invalid flag is monotonic and final.  In order:
(1) along any execution from a clean initial configuration, once
`patchpoint_invalid` is set it is never cleared; (2) a fresh
`PatchpointOptimizationPolicy` invocation first reads `m_osrMethodCode`;
(3) when the invalid flag is set, its invalid check makes it return `NULL`
without touching the shared record — the caller falls back to the
unoptimized code; (4) a fresh `PatchpointRequiredPolicy` invocation on an
invalid patchpoint goes fatal (`EEPOLICY_HANDLE_FATAL_ERROR`) immediately;
(5) a `NULL` policy result makes `JIT_PatchpointWorkerWorkerWithPolicy`
return normally, performing no transition. -/
theorem patchpoint_invalid_monotonic :
    (∀ (hitLimit : Int) (c0 c c2 : OsrConfig), CleanInit c0 →
        SysReach hitLimit c0 c → SysReach hitLimit c c2 →
        c.pp.flagInvalid = true → c2.pp.flagInvalid = true)
    ∧ (∀ (hitLimit : Int) (pp pp2 : PerPatchpointInfo) (t2 : OptThread),
        OptStep hitLimit pp .start pp2 t2 →
        pp2 = pp ∧ t2 = .atInvalidCheck pp.osrMethodCode)
    ∧ (∀ (hitLimit : Int) (pp pp2 : PerPatchpointInfo) (t2 : OptThread) (osr : Nat),
        pp.flagInvalid = true →
        OptStep hitLimit pp (.atInvalidCheck osr) pp2 t2 →
        pp2 = pp ∧ t2 = .done 0)
    ∧ (∀ (pp pp2 : PerPatchpointInfo) (t2 : ReqThread),
        pp.flagInvalid = true → ReqStep pp .start pp2 t2 → pp2 = pp ∧ t2 = .fatal)
    ∧ (∀ (e b : Nat) (amd64 : Bool) (c1 c2 : OsrContext),
        JIT_PatchpointWorkerWorkerWithPolicy e b 0 amd64 c1 c2 = .normalReturn e) := by
  refine ⟨?_, ?_, ?_, ?_, ?_⟩
  · intro hitLimit c0 c c2 h0 hr hr2 hinv
    exact sysReach_invalid_mono hitLimit h0 hr hr2 hinv
  · intro hitLimit pp pp2 t2 h
    cases h
    exact ⟨rfl, rfl⟩
  · intro hitLimit pp pp2 t2 osr hinv h
    cases h with
    | invalidHit => exact ⟨rfl, rfl⟩
    | osrAlready =>
      rename_i h1 h2
      simp [hinv] at h1
    | toIncrement =>
      rename_i h1 h2
      simp [hinv] at h1
  · intro pp pp2 t2 hinv h
    cases h with
    | entryInvalid => exact ⟨rfl, rfl⟩
    | entryOk h1 => simp [hinv] at h1
  · intro e b amd64 c1 c2
    simp [JIT_PatchpointWorkerWorkerWithPolicy]

/-- Witness for C7 at concrete inputs: an execution of the required policy
whose compilation fails leaves the record invalid (and it stays invalid); an
optimizing-policy hit on an invalid record returns `NULL` without touching
the record; a `NULL` policy result exits the helper normally with the saved
last error restored. -/
theorem patchpoint_invalid_monotonic_witness :
    ((⟨true, true, 0, 0⟩ : PerPatchpointInfo).flagInvalid = true)
    ∧ ((⟨false, true, 5, 3⟩ : PerPatchpointInfo) = ⟨false, true, 5, 3⟩
        ∧ OptThread.done 0 = .done 0)
    ∧ JIT_PatchpointWorkerWorkerWithPolicy 42 7 0 true ⟨1, 2, 3, 4⟩ ⟨5, 6, 7, 8⟩
        = .normalReturn 42 :=
  ⟨patchpoint_invalid_monotonic.1 10
      ⟨⟨false, false, 0, 0⟩, [.req .start, .opt .start]⟩
      ⟨⟨true, true, 0, 0⟩, [.req .fatal, .opt .start]⟩
      ⟨⟨true, true, 0, 0⟩, [.req .fatal, .opt .start]⟩
      ⟨rfl, rfl, rfl, by decide⟩ exampleReach8 .refl rfl,
   patchpoint_invalid_monotonic.2.2.1 0 ⟨false, true, 5, 3⟩ ⟨false, true, 5, 3⟩
      (.done 0) 5 rfl (.invalidHit _ 5 rfl),
   patchpoint_invalid_monotonic.2.2.2.2 42 7 true ⟨1, 2, 3, 4⟩ ⟨5, 6, 7, 8⟩⟩

/-- C6: concurrent patchpoint hits.  In order: (1) mutual exclusion — in any
configuration reachable from a clean initial one, at most one thread is past
a winning compare-and-swap on the triggered flag and up to compiling or
publishing (so at most one thread at a time performs compilation);
(2) agreement — any two terminated policy invocations that returned non-null
code addresses returned the same address; (3) permanence — once a non-null
`m_osrMethodCode` is published it never changes, so every later observation
sees that same address; (4) an optimizing-policy thread that sees the
triggered flag already set returns `NULL` and keeps running original code;
(5) likewise when its compare-and-swap loses the race; (6) a required-policy
thread that sees the triggered flag set goes back to the spin loop (yield);
(7) likewise when its compare-and-swap loses; (8) a spinning required-policy
thread whose loop check sees published code leaves the loop, and (9) then
returns exactly the published address. -/
theorem patchpoint_single_compiler :
    (∀ (hitLimit : Int) (c0 c : OsrConfig), CleanInit c0 → SysReach hitLimit c0 c →
        ∀ i j : Nat, ∀ hi : i < c.threads.length, ∀ hj : j < c.threads.length,
          i ≠ j → (c.threads[i]).inWinnerRegion = true →
          (c.threads[j]).inWinnerRegion = false)
    ∧ (∀ (hitLimit : Int) (c0 c : OsrConfig), CleanInit c0 → SysReach hitLimit c0 c →
        ∀ i j : Nat, ∀ hi : i < c.threads.length, ∀ hj : j < c.threads.length,
          ∀ r r' : Nat, (c.threads[i]).retOf = some r → (c.threads[j]).retOf = some r' →
          r ≠ 0 → r' ≠ 0 → r = r')
    ∧ (∀ (hitLimit : Int) (c0 c c2 : OsrConfig), CleanInit c0 → SysReach hitLimit c0 c →
        SysReach hitLimit c c2 → c.pp.osrMethodCode ≠ 0 →
        c2.pp.osrMethodCode = c.pp.osrMethodCode)
    ∧ (∀ (hitLimit : Int) (pp pp2 : PerPatchpointInfo) (t2 : OptThread)
         (osr : Nat) (oldInvalid : Bool),
        OptStep hitLimit pp (.atCas osr true oldInvalid) pp2 t2 →
        pp2 = pp ∧ t2 = .done 0)
    ∧ (∀ (hitLimit : Int) (pp pp2 : PerPatchpointInfo) (t2 : OptThread)
         (osr : Nat) (oldInvalid : Bool),
        ¬(pp.flagTriggered = false ∧ pp.flagInvalid = oldInvalid) →
        OptStep hitLimit pp (.atCas osr false oldInvalid) pp2 t2 →
        pp2 = pp ∧ t2 = .done 0)
    ∧ (∀ (pp pp2 : PerPatchpointInfo) (t2 : ReqThread),
        pp.flagTriggered = true → ReqStep pp .loopFlagsRead pp2 t2 →
        pp2 = pp ∧ t2 = .loopHead)
    ∧ (∀ (pp pp2 : PerPatchpointInfo) (t2 : ReqThread) (oldInvalid newInvalid : Bool),
        ¬(pp.flagTriggered = false ∧ pp.flagInvalid = oldInvalid) →
        ReqStep pp (.loopCas oldInvalid newInvalid) pp2 t2 →
        pp2 = pp ∧ t2 = .loopHead)
    ∧ (∀ (pp pp2 : PerPatchpointInfo) (t2 : ReqThread),
        pp.osrMethodCode ≠ 0 → ReqStep pp .loopHead pp2 t2 →
        pp2 = pp ∧ t2 = .exitRead)
    ∧ (∀ (pp pp2 : PerPatchpointInfo) (t2 : ReqThread),
        ReqStep pp .exitRead pp2 t2 → pp2 = pp ∧ t2 = .done pp.osrMethodCode) := by
  refine ⟨?_, ?_, ?_, ?_, ?_, ?_, ?_, ?_, ?_⟩
  · intro hitLimit c0 c h0 hr i j hi hj hne hwi
    exact (osrInv_reach hitLimit h0 hr).mutex i j hi hj hne hwi
  · intro hitLimit c0 c h0 hr i j hi hj r r2 hri hrj hner hner2
    have inv := osrInv_reach hitLimit h0 hr
    rw [retOf_agree hri (inv.agree i hi) hner, retOf_agree hrj (inv.agree j hj) hner2]
  · intro hitLimit c0 c c2 h0 hr hr2 hne
    exact sysReach_osr_permanent hitLimit h0 hr hr2 hne
  · intro hitLimit pp pp2 t2 osr oldInvalid h
    cases h
    exact ⟨rfl, rfl⟩
  · intro hitLimit pp pp2 t2 osr oldInvalid hcon h
    cases h with
    | casWin =>
      rename_i h1 h2
      exact absurd ⟨h1, h2⟩ hcon
    | casLose => exact ⟨rfl, rfl⟩
  · intro pp pp2 t2 htrig h
    cases h with
    | flagsReadAwait => exact ⟨rfl, rfl⟩
    | flagsReadGo h1 => simp [htrig] at h1
  · intro pp pp2 t2 oldInvalid newInvalid hcon h
    cases h with
    | casWin =>
      rename_i h1 h2
      exact absurd ⟨h1, h2⟩ hcon
    | casLose => exact ⟨rfl, rfl⟩
  · intro pp pp2 t2 hne h
    cases h with
    | loopExit => exact ⟨rfl, rfl⟩
    | loopIter h1 => exact absurd h1 hne
  · intro pp pp2 t2 h
    cases h
    exact ⟨rfl, rfl⟩

/-- Witness for C6 at concrete inputs: in the concrete two-thread execution
in which the required-policy thread has won the compare-and-swap and is
compiling, the other thread is outside the winner region; and a spinning
required-policy thread seeing the published address 7 leaves its loop. -/
theorem patchpoint_single_compiler_witness :
    ThreadProg.inWinnerRegion (.opt .start) = false
    ∧ ((⟨false, false, 7, 0⟩ : PerPatchpointInfo) = ⟨false, false, 7, 0⟩
        ∧ ReqThread.exitRead = .exitRead) :=
  ⟨patchpoint_single_compiler.1 10
      ⟨⟨false, false, 0, 0⟩, [.req .start, .opt .start]⟩
      ⟨⟨true, false, 0, 0⟩, [.req .compile, .opt .start]⟩
      ⟨rfl, rfl, rfl, by decide⟩ exampleReach6 0 1
      (by decide) (by decide) (by decide) (by decide),
   patchpoint_single_compiler.2.2.2.2.2.2.2.1 ⟨false, false, 7, 0⟩
      ⟨false, false, 7, 0⟩ .exitRead (by decide) (.loopExit _ (by decide))⟩

end Patchpoint


namespace StackWalk

/-- Counterexample to C1 as stated: a non-filter funclet that has been
unwound by an active exception is delivered with its references *not*
reported (`fShouldCrawlframeReportGCReferences = false`), and when its
parent frame is then reached — the parent not being the caller of the
active exception's actual handler frame (caller-of-handler 999, parent 200)
— the parent is *still* suppressed
(`fShouldParentToFuncletSkipReportingGCReferences = true`, with no
saved-funclet-slots reporting either), so neither of {funclet, parent}
reports references for the logical frame: the parent is not force-delivered
even though its funclet was unwound away before reporting. -/
theorem filter_funclet_parent_reporting_counterexample :
    (FilterFramelessFrame 4 ⟨true, 0, 2, none, 0, 999⟩
        ⟨100, 120, true, false, some 200, true, true⟩
        ⟨none, none, none, false, false, true, false, false, true, .Off⟩).1.reportFlag
      = some false
    ∧ (FilterFramelessFrame 4 ⟨true, 0, 2, none, 0, 999⟩
        ⟨150, 200, false, false, none, false, true⟩
        (FilterFramelessFrame 4 ⟨true, 0, 2, none, 0, 999⟩
          ⟨100, 120, true, false, some 200, true, true⟩
          ⟨none, none, none, false, false, true, false, false, true, .Off⟩).2).1.skipFlag
      = some true
    ∧ (FilterFramelessFrame 4 ⟨true, 0, 2, none, 0, 999⟩
        ⟨150, 200, false, false, none, false, true⟩
        (FilterFramelessFrame 4 ⟨true, 0, 2, none, 0, 999⟩
          ⟨100, 120, true, false, some 200, true, true⟩
          ⟨none, none, none, false, false, true, false, false, true, .Off⟩).2).1.savedSlotsFlag
      = some false := by
  refine ⟨?_, ?_, ?_⟩ <;> decide

set_option maxHeartbeats 2000000 in
/-- C1 (amended): funclet/parent GC reference reporting in
`GC_FUNCLET_REFERENCE_REPORTING` mode.  In order:
(1) a non-filter funclet newly encountered is delivered to the callback,
reporting references iff it has not been unwound by an active exception, and
the walk starts tracking its parent (recording whether the funclet reported);
(2) frames between the funclet and its parent are suppressed from the
callback;
(3) when the parent is reached it is delivered, and it is suppressed from
reporting *unless* the funclet did not report and the parent is the caller
of the active exception's actual handler frame, in which case it is
force-delivered (reporting via the unwind target PC); if the funclet did not
report and the parent is not the handling frame, the parent stays suppressed
and reports saved funclet slots exactly when a previously-scanned funclet
was recorded;
(4) a filter funclet is delivered reporting its references without starting
parent-directed skipping; and
(5) when the filter funclet's parent is reached it is delivered reporting
its own references as well — for filter funclets both funclet and parent
report. -/
theorem filter_funclet_parent_reporting :
    (∀ (fuel : Nat) (env : ExInfoEnv) (fr : GcFrame) (st : GcFilterState) (p : Nat),
       st.sfParent = none → st.sfFuncletParent = none →
       st.fProcessNonFilterFunclet = false →
       st.fProcessIntermediaryNonFilterFunclet = false →
       st.fDidFuncletReportGCReferences = true →
       st.movedPastFirstExInfo = true →
       fr.isFunclet = true → fr.isFilterFunclet = false →
       fr.parentSP = some p → fr.callerSP ≠ p → fr.callerIpManaged = true →
       (FilterFramelessFrame (fuel + 1) env fr st).1.reportFlag = some (!fr.hasBeenUnwound)
       ∧ (FilterFramelessFrame (fuel + 1) env fr st).1.skipFlag = some false
       ∧ (FilterFramelessFrame (fuel + 1) env fr st).2.sfParent = some p
       ∧ (FilterFramelessFrame (fuel + 1) env fr st).2.fProcessNonFilterFunclet = true
       ∧ (FilterFramelessFrame (fuel + 1) env fr st).2.fDidFuncletReportGCReferences
           = !fr.hasBeenUnwound)
    ∧ (∀ (fuel : Nat) (env : ExInfoEnv) (fr : GcFrame) (st : GcFilterState) (p fp : Nat),
       st.sfParent = some p → st.sfFuncletParent = some fp →
       st.fProcessNonFilterFunclet = true →
       st.fProcessIntermediaryNonFilterFunclet = false →
       st.movedPastFirstExInfo = true →
       st.forceReportingWhileSkipping = .Off →
       fr.isFunclet = false → fr.hasBeenUnwound = false → fr.callerSP ≠ p →
       FilterFramelessFrame (fuel + 1) env fr st = (.skipped, st))
    ∧ (∀ (fuel : Nat) (env : ExInfoEnv) (fr : GcFrame) (st : GcFilterState) (p fp : Nat),
       st.sfParent = some p → st.sfFuncletParent = some fp →
       st.fProcessNonFilterFunclet = true →
       st.fProcessIntermediaryNonFilterFunclet = false →
       st.movedPastFirstExInfo = true →
       st.forceReportingWhileSkipping = .Off →
       fr.isFunclet = false → fr.hasBeenUnwound = false → fr.callerSP = p →
       (FilterFramelessFrame (fuel + 1) env fr st).1
         = .deliver
             ⟨!(!st.fDidFuncletReportGCReferences && env.exInfoPresent
                  && (env.callerOfActualHandlerSP == fp)),
              true, false,
              !st.fDidFuncletReportGCReferences && env.exInfoPresent
                  && (env.callerOfActualHandlerSP == fp),
              !st.fDidFuncletReportGCReferences
                  && !(env.exInfoPresent && (env.callerOfActualHandlerSP == fp))
                  && st.fFuncletNotSeen⟩
       ∧ (FilterFramelessFrame (fuel + 1) env fr st).2.sfParent = none
       ∧ (FilterFramelessFrame (fuel + 1) env fr st).2.fDidFuncletReportGCReferences = true)
    ∧ (∀ (fuel : Nat) (env : ExInfoEnv) (fr : GcFrame) (st : GcFilterState) (p : Nat),
       st.sfParent = none → st.sfFuncletParent = none →
       st.fProcessNonFilterFunclet = false →
       st.fProcessIntermediaryNonFilterFunclet = false →
       st.movedPastFirstExInfo = true →
       fr.isFunclet = true → fr.isFilterFunclet = true →
       fr.parentSP = some p → fr.hasBeenUnwound = false →
       (FilterFramelessFrame (fuel + 1) env fr st).1
           = .deliver ⟨false, true, false, false, false⟩
       ∧ (FilterFramelessFrame (fuel + 1) env fr st).2.sfFuncletParent = some p
       ∧ (FilterFramelessFrame (fuel + 1) env fr st).2.fProcessNonFilterFunclet = false
       ∧ (FilterFramelessFrame (fuel + 1) env fr st).2.sfParent = none)
    ∧ (∀ (fuel : Nat) (env : ExInfoEnv) (fr : GcFrame) (st : GcFilterState) (fp : Nat),
       st.sfParent = none → st.sfFuncletParent = some fp →
       st.fProcessNonFilterFunclet = false →
       st.fProcessIntermediaryNonFilterFunclet = false →
       st.movedPastFirstExInfo = true →
       fr.isFunclet = false → fr.hasBeenUnwound = false → fr.callerSP = fp →
       (FilterFramelessFrame (fuel + 2) env fr st).1
           = .deliver ⟨false, true, false, false, false⟩
       ∧ (FilterFramelessFrame (fuel + 2) env fr st).2.sfFuncletParent = none) := by
  refine ⟨?_, ?_, ?_, ?_, ?_⟩
  · -- (1) non-filter funclet delivery
    intro fuel env fr st p h1 h2 h3 h4 h5 h6 h7 h8 h9 h10 h11
    have hcs : (fr.callerSP == p) = false := beq_eq_false_iff_ne.mpr h10
    by_cases hsave : ((st.fFoundFirstFunclet = false ∧ env.exInfoPresent = true)
        ∧ fr.sp < env.exInfoAddr) ∧ env.exInfoAddr < p <;>
      by_cases hunw : fr.hasBeenUnwound = true <;>
        simp [FilterFramelessFrame, FramelessCaseGC, RunProcessFunclets,
          ProcessFuncletsBody, DeliverUnwound, IsUnwoundToTargetParentFrame,
          ResetGCRefReportingState, GcFrameVerdict.reportFlag, GcFrameVerdict.skipFlag,
          h1, h2, h3, h4, h5, h6, h7, h8, h9, h11, hcs, hsave, hunw]
  · -- (2) suppression between funclet and parent
    intro fuel env fr st p fp h1 h2 h3 h4 h5 h6 h7 h8 h9
    have hcs : (fr.callerSP == p) = false := beq_eq_false_iff_ne.mpr h9
    simp [FilterFramelessFrame, FramelessCaseGC, RunProcessFunclets,
      ProcessFuncletsBody, DeliverUnwound, IsUnwoundToTargetParentFrame,
      ResetGCRefReportingState, h1, h2, h3, h4, h5, h6, h7, h8, hcs]
  · -- (3) parent delivery characterization
    intro fuel env fr st p fp h1 h2 h3 h4 h5 h6 h7 h8 h9
    have hcs : (fr.callerSP == p) = true := beq_iff_eq.mpr h9
    by_cases hd : st.fDidFuncletReportGCReferences = true <;>
      by_cases hp : env.exInfoPresent = true <;>
        by_cases hm : env.callerOfActualHandlerSP = fp <;>
          by_cases hn : st.fFuncletNotSeen = true <;>
            simp [FilterFramelessFrame, FramelessCaseGC, RunProcessFunclets,
              ProcessFuncletsBody, DeliverUnwound, IsUnwoundToTargetParentFrame,
              ResetGCRefReportingState, h1, h2, h3, h4, h5, h6, h7, h8, hcs,
              hd, hp, hm, hn]
  · -- (4) filter funclet delivery
    intro fuel env fr st p h1 h2 h3 h4 h5 h6 h7 h8 h9
    simp [FilterFramelessFrame, FramelessCaseGC, RunProcessFunclets,
      ProcessFuncletsBody, DeliverUnwound, IsUnwoundToTargetParentFrame,
      ResetGCRefReportingState, h1, h2, h3, h4, h5, h6, h7, h8, h9]
  · -- (5) filter parent delivery: both report
    intro fuel env fr st fp h1 h2 h3 h4 h5 h6 h7 h8
    have hcs : (fr.callerSP == fp) = true := beq_iff_eq.mpr h8
    simp [FilterFramelessFrame, FramelessCaseGC, RunProcessFunclets,
      ProcessFuncletsBody, DeliverUnwound, IsUnwoundToTargetParentFrame,
      ResetGCRefReportingState, h1, h2, h3, h4, h5, h6, h7, hcs]

/-- Witness for the amended C1 at concrete inputs: reaching the parent of a
funclet that reported its references delivers the parent with reporting
suppressed. -/
theorem filter_funclet_parent_reporting_witness :
    (FilterFramelessFrame 4 ⟨true, 0, 2, none, 0, 999⟩
        ⟨150, 200, false, false, none, false, true⟩
        ⟨some 200, some 200, none, true, false, true, false, false, true, .Off⟩).1
      = .deliver ⟨true, true, false, false, false⟩ := by
  have h := (filter_funclet_parent_reporting.2.2.1 3
    ⟨true, 0, 2, none, 0, 999⟩ ⟨150, 200, false, false, none, false, true⟩
    ⟨some 200, some 200, none, true, false, true, false, false, true, .Off⟩
    200 200 rfl rfl rfl rfl rfl rfl rfl rfl rfl).1
  simpa using h

end StackWalk
